import Mathlib

/-!
# Brick Breaker (OTTER-Stable/projects/Brick Breaker/src/main.cpp)

A shallow embedding of the game loop, the paddle input, the render-object
transform, the light structure, the scene lookup and the JSON persistence of
`main.cpp`, together with the properties of the specification that concern
them.

Numbers.  The program computes with `GLfloat`; the embedding is exact: every
definition is written over an arbitrary linearly ordered field `α` (so it runs
on `ℚ`), the decimal literals of the source are read as exact decimals, and the
library functions `sqrt`, `cos`, `sin` are passed in as arguments.  Theorems
that need the meaning of a library function instantiate `α := ℝ` with
`Real.sqrt`, `Real.cos`, `Real.sin`.  Rounding is outside the embedding, with
one exception: the paddle bounce computes the boundary between its third and
its fourth zone twice, in `double` on line 962 and in `float` on line 967, and
the two results differ; there the `float` sum is rounded to single precision
by `roundFloat`.
-/

set_option linter.unusedSectionVars false
set_option linter.unusedVariables false

namespace BrickBreaker

/-! ## Data -/

/-- The three components of a `glm::vec3`. -/
structure Vec3 (α : Type) where
  x : α
  y : α
  z : α

/-- The global variables of `main.cpp` (lines 86-90) together with the
`Position` of every render object the game loop reaches through the pointers
obtained at lines 803-812.  `brickCount` is a C++ `int`; it is modelled as an
unbounded integer (signed overflow is undefined in C++ and needs more than
`2^31` brick hits). -/
structure Game (α : Type) where
  win : Bool
  lose : Bool
  dirX : α
  dirY : α
  speedX : α
  speedY : α
  brickCount : Int
  ball : Vec3 α
  paddle : Vec3 α
  brick1 : Vec3 α
  brick2 : Vec3 α
  brick3 : Vec3 α
  brick4 : Vec3 α
  brick5 : Vec3 α
  winplane : Vec3 α
  lossplane : Vec3 α

section Defs

variable {α : Type} [LinearOrderedField α]

/-- Global `radius = 0.3f` (line 88); never assigned after initialisation. -/
def radius : α := 0.3

/-- Global `brickRadius = 0.63f` (line 89); never assigned after
initialisation. -/
def brickRadius : α := 0.63

/-- Function `movePaddle` (lines 93-105).  `keyA` and `keyD` are the results of
`glfwGetKey(window, GLFW_KEY_A) == GLFW_PRESS` and of the same test for
`GLFW_KEY_D`. -/
def movePaddle (keyA keyD : Bool) (xPos : α) : α :=
  let xPos := if keyA then (if xPos > -6.12 then xPos - 0.05 else xPos) else xPos
  let xPos := if keyD then (if xPos < 6.12 then xPos + 0.05 else xPos) else xPos
  xPos

/-- Function `calcSpeed` (lines 107-109). -/
def calcSpeed (sqrt : α → α) (speedX speedY : α) : α :=
  sqrt (speedX ^ 2 + speedY ^ 2)

/-- Function `calcDist` (lines 111-113). -/
def calcDist (sqrt : α → α) (x1 y1 x2 y2 : α) : α :=
  sqrt ((x2 - x1) ^ 2 + (y2 - y1) ^ 2)

/-- Wall bounce (lines 854-857).  A conditional assignment `if (c) v = e;` is
written as the new value of `v`, `if c then e else v`. -/
def wallStep (s : Game α) : Game α :=
  let s := { s with dirX := if s.ball.x ≥ 7.21 ∨ s.ball.x ≤ -7.21 then s.dirX * -1 else s.dirX }
  let s := { s with dirY := if s.ball.y ≤ -7.17 then s.dirY * -1 else s.dirY }
  s

/-- The body shared by the five brick blocks (lines 860-875, 877-892, 894-909,
911-926, 928-943), which differ only in the brick they name.  Returns the new
`Position` of that brick and the new globals.  The second speed is computed
from the first one as already updated, as in the source. -/
def hitBrick (sqrt : α → α) (brick : Vec3 α) (s : Game α) : Vec3 α × Game α :=
  if calcDist sqrt brick.x brick.y s.ball.x s.ball.y ≤ brickRadius + radius then
    let s := { s with brickCount := s.brickCount + 1 }
    let s := { s with speedX := sqrt ((s.ball.x - brick.x) ^ 2)
                        / ((brickRadius + radius) / calcSpeed sqrt s.speedX s.speedY) }
    let s := { s with speedY := sqrt ((s.ball.y - brick.y) ^ 2)
                        / ((brickRadius + radius) / calcSpeed sqrt s.speedX s.speedY) }
    let s := { s with dirX := if brick.x > s.ball.x then -1 else s.dirX }
    let s := { s with dirX := if brick.x < s.ball.x then 1 else s.dirX }
    let s := { s with dirY := if brick.y > s.ball.y then -1 else s.dirY }
    let s := { s with dirY := if brick.y < s.ball.y then 1 else s.dirY }
    (⟨-10, 0, 0⟩, s)
  else
    (brick, s)

/-- The test of a brick block (line 860 and its four copies), named: the brick
is within the two radii of the ball. -/
def inRange (sqrt : α → α) (brick : Vec3 α) (s : Game α) : Prop :=
  calcDist sqrt brick.x brick.y s.ball.x s.ball.y ≤ brickRadius + radius

instance (sqrt : α → α) (brick : Vec3 α) (s : Game α) : Decidable (inRange sqrt brick s) := by
  unfold inRange; infer_instance

/-- The five brick blocks in source order (lines 860-943). -/
def bricksStep (sqrt : α → α) (s : Game α) : Game α :=
  let r := hitBrick sqrt s.brick1 s
  let s := { r.2 with brick1 := r.1 }
  let r := hitBrick sqrt s.brick2 s
  let s := { r.2 with brick2 := r.1 }
  let r := hitBrick sqrt s.brick3 s
  let s := { r.2 with brick3 := r.1 }
  let r := hitBrick sqrt s.brick4 s
  let s := { r.2 with brick4 := r.1 }
  let r := hitBrick sqrt s.brick5 s
  let s := { r.2 with brick5 := r.1 }
  s

/-- The test that guards the paddle bounce (lines 946-948). -/
def paddleTrigger (s : Game α) : Prop :=
  s.ball.y ≥ 5.36 ∧ s.ball.x ≥ s.paddle.x - 1.44 ∧ s.ball.x ≤ s.paddle.x + 1.44

instance (s : Game α) : Decidable (paddleTrigger s) := by
  unfold paddleTrigger; infer_instance

/-- The power of two at or below `a`, searched downwards from `p`: `p` is halved
while `a < p`, at most `n` times. -/
def binadeDown : Nat → α → α → α
  | 0, _, p => p
  | n + 1, a, p => if a < p then binadeDown n a (p / 2) else p

/-- The power of two at or below `a`, searched upwards from `p`: `p` is doubled
while `2 * p ≤ a`, at most `n` times. -/
def binadeUp : Nat → α → α → α
  | 0, _, p => p
  | n + 1, a, p => if 2 * p ≤ a then binadeUp n a (2 * p) else p

/-- The power of two `2 ^ e` with `2 ^ e ≤ a < 2 ^ (e + 1)`, for `e` in the
exponent range `-126 .. 127` of a C++ `float` (IEEE 754 binary32); a smaller `a`
gets `2 ^ (-126)`, the binade of the subnormal numbers. -/
def binade (a : α) : α :=
  if a < 1 then binadeDown 126 a 1 else binadeUp 127 a 1

/-- The whole part of `q`, for `m ≤ q < m + 2 ^ n` with `m` a multiple of `2 ^ n`:
the bits are decided from the highest to the lowest. -/
def floorBits : Nat → α → α → α
  | 0, _, m => m
  | n + 1, q, m => if m + 2 ^ n ≤ q then floorBits n q (m + 2 ^ n) else floorBits n q m

/-- The whole number nearest to `q`, for `0 ≤ q < 2 ^ 24`; of two nearest ones
the even one. -/
def roundEven (q : α) : α :=
  let m := floorBits 24 q 0
  if q - m < 1 / 2 then m
  else if 1 / 2 < q - m then m + 1
  else if 2 * floorBits 24 (q / 2) 0 = m then m else m + 1

/-- The value a C++ `float` takes when it is given the number `x`: `x` rounded
to 24 significant bits, to the nearest such number and to the even one of two
nearest (IEEE 754 binary32, the default rounding).  Overflow to infinity, which
needs `|x| ≥ 2 ^ 128`, is not represented. -/
def roundFloat (x : α) : α :=
  let u := binade |x| / 2 ^ 23
  if 0 ≤ x then roundEven (x / u) * u else -(roundEven (-x / u) * u)

/-- Paddle bounce (lines 946-977).  Every boundary of the chain but one is the
same `float` expression wherever it occurs, and is taken exactly.  The boundary
between the third and the fourth zone is written twice: line 962 adds the
`double` literal `0.288`, so that the sum is a `double` (taken exactly), and
line 967 adds the `float` literal `0.288f`, so that the sum is a `float`, the
rounded `roundFloat (paddle.x + roundFloat 0.288)`. -/
def paddleStep (s : Game α) : Game α :=
  if paddleTrigger s then
    let s := { s with dirY := -1 }
    if s.ball.x < s.paddle.x - 0.864 then
      { s with dirX := -1, speedX := 0.015 * 2, speedY := 0.015 * 2 }
    else if s.ball.x ≥ s.paddle.x - 0.864 ∧ s.ball.x < s.paddle.x - 0.288 then
      { s with dirX := -1, speedX := 0.0061 * 2, speedY := 0.0148 * 2 }
    else if s.ball.x ≥ s.paddle.x - 0.288 ∧ s.ball.x ≤ s.paddle.x + 0.288 then
      { s with dirX := 0, speedX := 0.0, speedY := 0.011 * 2 }
    else if s.ball.x > roundFloat (s.paddle.x + roundFloat 0.288)
        ∧ s.ball.x ≤ s.paddle.x + 0.864 then
      { s with dirX := 1, speedX := 0.0061 * 2, speedY := 0.0148 * 2 }
    else if s.ball.x > s.paddle.x + 0.864 then
      { s with dirX := 1, speedX := 0.015 * 2, speedY := 0.015 * 2 }
    else s
  else s

/-- Loss check (lines 979-984). -/
def lossCheck (s : Game α) : Game α :=
  if s.ball.y > 6 then { s with speedX := 0.0, speedY := 0.0, lose := true } else s

/-- Win check (lines 986-988). -/
def winCheck (s : Game α) : Game α :=
  if s.brickCount = 5 then { s with win := true } else s

/-- Ball movement (lines 991-992). -/
def moveBall (s : Game α) : Game α :=
  if !s.lose && !s.win then
    { s with ball := ⟨s.ball.x + s.speedX * s.dirX,
                      s.ball.y + s.speedY * s.dirY * 2.0,
                      s.ball.z + 0⟩ }
  else s

/-- Paddle movement (lines 995-996). -/
def paddleMove (keyA keyD : Bool) (s : Game α) : Game α :=
  if !s.lose && !s.win then
    { s with paddle := { s.paddle with x := movePaddle keyA keyD s.paddle.x } }
  else s

/-- The two overlay blocks (lines 999-1008). -/
def overlays (s : Game α) : Game α :=
  let s := if s.lose then { s with lossplane := ⟨0.0, 0.0, 4.0⟩, winplane := ⟨0.0, 0.0, -50.0⟩ } else s
  let s := if s.win then { s with winplane := ⟨0.0, 0.0, 4.0⟩, lossplane := ⟨0.0, 0.0, -50.0⟩ } else s
  s

/-- One iteration of the game loop, lines 853-1008: the part of the loop body
that reads and writes the game state.  `keyA` and `keyD` are the key states
polled in this iteration. -/
def tick (sqrt : α → α) (keyA keyD : Bool) (s : Game α) : Game α :=
  overlays (paddleMove keyA keyD (moveBall (winCheck (lossCheck
    (paddleStep (bricksStep sqrt (wallStep s)))))))

/-- Successive iterations of the game loop, one per polled key pair, first
pair first. -/
def run (sqrt : α → α) : List (Bool × Bool) → Game α → Game α
  | [], s => s
  | k :: ks, s => run sqrt ks (tick sqrt k.1 k.2 s)

/-- The state in which the loop starts when the scene is built in code
(`loadScene = false`): the globals of lines 86-90 (`dirX` has no initialiser
and static storage, hence `0`) and the positions given at lines 712-794. -/
def initialGame : Game α where
  win := false
  lose := false
  dirX := 0
  dirY := 1.0
  speedX := 0.0
  speedY := 0.013
  brickCount := 0
  ball := ⟨0.0, 0.0, 0.0⟩
  paddle := ⟨0.0, 5.8, 0.0⟩
  brick1 := ⟨-4.3, -4.5, 0.0⟩
  brick2 := ⟨-4.3, -0.52, 0.0⟩
  brick3 := ⟨0.0, -2.5, 0.0⟩
  brick4 := ⟨4.3, -4.5, 0.0⟩
  brick5 := ⟨4.3, -0.52, 0.0⟩
  winplane := ⟨0.0, 0.0, -50.0⟩
  lossplane := ⟨0.0, 0.0, -50.0⟩

end Defs

/-! ## Render objects -/

/-- A `Guid` (class defined outside `main.cpp`): a 128-bit identifier, kept as
its numeric value. -/
structure Guid where
  value : Nat
deriving DecidableEq

/-- A `glm::quat`. -/
structure Quat (α : Type) where
  w : α
  x : α
  y : α
  z : α

/-- A `glm::mat4`, indexed by row and column (`m[c][r]` of glm is entry
`r c`); the product of glm is the matrix product. -/
abbrev Mat4 (α : Type) : Type := Matrix (Fin 4) (Fin 4) α

/-- A `nlohmann::json` value as far as the code reads and writes it.  An object
is kept as its list of members; `operator[]` finds a member by its key. -/
inductive Json (α : Type) where
  | null : Json α
  | bool : Bool → Json α
  | num : α → Json α
  | str : String → Json α
  | arr : List (Json α) → Json α
  | obj : List (String × Json α) → Json α

/-- Structure `MaterialInfo` (lines 166-221): its `IResource` GUID and its
fields; a shader or texture pointer is represented by the GUID of the resource
it points to, `none` for `nullptr`. -/
structure MaterialInfo (α : Type) where
  GUID : Guid
  Name : String
  Shader : Option Guid
  Texture : Option Guid
  Shininess : α

/-- Structure `RenderObject` (lines 225-245).  `Mesh` is represented by the
GUID of the vertex array it points to and `Material` by the material it points
to, `none` for `nullptr`; an element of `MeshBuilderParams`, whose type is
defined outside `main.cpp`, is kept as the JSON value that stands for it. -/
structure RenderObject (α : Type) where
  Name : String
  GUID : Guid
  Transform : Mat4 α
  Mesh : Option Guid
  Material : Option (MaterialInfo α)
  MeshBuilderParams : List (Json α)
  Position : Vec3 α
  Rotation : Vec3 α
  Scale : Vec3 α

section Transform

variable {α : Type} [LinearOrderedField α] [FloorRing α]

/-- Library function `trunc`: rounding toward zero. -/
def trunc (q : α) : Int :=
  if 0 ≤ q then ⌊q⌋ else ⌈q⌉

/-- Library function `glm::fmod` on scalars: the remainder of the division
rounded toward zero, `x - y * trunc (x / y)` (the result of `std::fmod`). -/
def fmod (x y : α) : α :=
  x - y * (trunc (x / y) : Int)

/-- Library function `glm::fmod` on a `vec3`, componentwise. -/
def fmod3 (v m : Vec3 α) : Vec3 α :=
  ⟨fmod v.x m.x, fmod v.y m.y, fmod v.z m.z⟩

/-- Library function `glm::radians` on a `vec3`: degrees times `pi / 180`. -/
def radians (pi : α) (v : Vec3 α) : Vec3 α :=
  ⟨v.x * (pi / 180), v.y * (pi / 180), v.z * (pi / 180)⟩

/-- Library constructor `glm::quat(vec3 eulerAngles)`. -/
def quatOfEuler (cos sin : α → α) (e : Vec3 α) : Quat α :=
  let cx := cos (e.x * 0.5)
  let cy := cos (e.y * 0.5)
  let cz := cos (e.z * 0.5)
  let sx := sin (e.x * 0.5)
  let sy := sin (e.y * 0.5)
  let sz := sin (e.z * 0.5)
  { w := cx * cy * cz + sx * sy * sz
    x := sx * cy * cz - cx * sy * sz
    y := cx * sy * cz + sx * cy * sz
    z := cx * cy * sz - sx * sy * cz }

/-- Library function `glm::mat4_cast`. -/
def mat4_cast (q : Quat α) : Mat4 α :=
  let qxx := q.x * q.x
  let qyy := q.y * q.y
  let qzz := q.z * q.z
  let qxz := q.x * q.z
  let qxy := q.x * q.y
  let qyz := q.y * q.z
  let qwx := q.w * q.x
  let qwy := q.w * q.y
  let qwz := q.w * q.z
  !![1 - 2 * (qyy + qzz), 2 * (qxy - qwz), 2 * (qxz + qwy), 0;
     2 * (qxy + qwz), 1 - 2 * (qxx + qzz), 2 * (qyz - qwx), 0;
     2 * (qxz - qwy), 2 * (qyz + qwx), 1 - 2 * (qxx + qyy), 0;
     0, 0, 0, 1]

/-- Library function `glm::translate` applied to `MAT4_IDENTITY`. -/
def translate (v : Vec3 α) : Mat4 α :=
  !![1, 0, 0, v.x;
     0, 1, 0, v.y;
     0, 0, 1, v.z;
     0, 0, 0, 1]

/-- Library function `glm::scale` applied to `MAT4_IDENTITY`. -/
def scale (v : Vec3 α) : Mat4 α :=
  !![v.x, 0, 0, 0;
     0, v.y, 0, 0;
     0, 0, v.z, 0;
     0, 0, 0, 1]

/-- Method `RenderObject::RecalcTransform` (lines 259-262). -/
def RenderObject.RecalcTransform (cos sin : α → α) (pi : α) (o : RenderObject α) :
    RenderObject α :=
  let o := { o with Rotation := fmod3 o.Rotation ⟨360.0, 360.0, 360.0⟩ }
  { o with Transform :=
      translate o.Position * mat4_cast (quatOfEuler cos sin (radians pi o.Rotation))
        * scale o.Scale }

/-- The paddle as it is built at lines 720-727, with the GUID and the mesh and
material handles it was given. -/
def paddleObject (g : Guid) (mesh : Option Guid) (mat : Option (MaterialInfo α)) :
    RenderObject α where
  Name := "Paddle"
  GUID := g
  Transform := 1
  Mesh := mesh
  Material := mat
  MeshBuilderParams := []
  Position := ⟨0.0, 5.8, 0.0⟩
  Rotation := ⟨180.0, -90.0, 0.0⟩
  Scale := ⟨1.0, 0.484, 0.23⟩

end Transform

/-! ## Lights -/

/-- Structure `Light` (lines 331-337). -/
structure Light (α : Type) where
  Position : Vec3 α
  Color : Vec3 α
  Attenuation : α
  Range : α

/-- What one ImGui widget call does: from the value it is given a pointer to,
the value it leaves there and the flag it returns. -/
abbrev Widget (β : Type) : Type := β → β × Bool

section Lights

variable {α : Type} [LinearOrderedField α]

/-- Library operator `json::operator[](key)` on a constant value: the member
with that key, `none` where the library does not return one (no such member,
not an object). -/
def Json.member (key : String) : Json α → Option (Json α)
  | .obj kvs => (kvs.find? (fun kv => kv.1 == key)).map Prod.snd
  | _ => none

/-- Library function `json::get<float>()`: the number held, a boolean read as
`1` or `0`, `none` where the library throws a type error. -/
def Json.getFloat : Json α → Option α
  | .num v => some v
  | .bool b => some (if b then 1 else 0)
  | _ => none

/-- Modelled from the spec: `GlmToJson` is declared outside `main.cpp`; the
spec writes a vector as the array `[x, y, z]`. -/
def GlmToJson (v : Vec3 α) : Json α :=
  .arr [.num v.x, .num v.y, .num v.z]

/-- Modelled from the spec: `ParseJsonVec3` is declared outside `main.cpp`; the
spec writes a vector as the array `[x, y, z]`. -/
def ParseJsonVec3 : Json α → Option (Vec3 α)
  | .arr [a, b, c] =>
    match Json.getFloat a, Json.getFloat b, Json.getFloat c with
    | some x, some y, some z => some ⟨x, y, z⟩
    | _, _, _ => none
  | _ => none

/-- A default-constructed `Light` (member initialisers of lines 335 and 337);
`Position` and `Color` have no initialiser and are whatever the storage
holds. -/
def Light.default (position color : Vec3 α) : Light α where
  Position := position
  Color := color
  Attenuation := 1.0 / 5.0
  Range := 4.0

/-- Function `Light::FromJson` (lines 342-349), over the vector parser it
calls. -/
def Light.FromJson (parseVec3 : Json α → Option (Vec3 α)) (data : Json α) :
    Option (Light α) :=
  match data.member "position", data.member "color", data.member "range" with
  | some p, some c, some r =>
    match parseVec3 p, parseVec3 c, Json.getFloat r with
    | some position, some color, some range =>
      some { Position := position
             Color := color
             Range := range
             Attenuation := 1.0 / (1.0 + range) }
    | _, _, _ => none
  | _, _, _ => none

/-- Method `Light::ToJson` (lines 354-360), over the vector printer it
calls. -/
def Light.ToJson (vecToJson : Vec3 α → Json α) (l : Light α) : Json α :=
  .obj [("position", vecToJson l.Position),
        ("color", vecToJson l.Color),
        ("range", .num l.Range)]

/-- Function `DrawLightImGui` (lines 563-576).  `header` is the result of
`ImGui::CollapsingHeader`; `dragPos`, `colorEdit` and `dragRange` are the three
widget calls. -/
def DrawLightImGui (header : Bool) (dragPos colorEdit : Widget (Vec3 α))
    (dragRange : Widget α) (light : Light α) : Bool × Light α :=
  let result := false
  let r :=
    if header then
      let p := dragPos light.Position
      let light := { light with Position := p.1 }
      let result := result || p.2
      let c := colorEdit light.Color
      let light := { light with Color := c.1 }
      let result := result || c.2
      let g := dragRange light.Range
      let light := { light with Range := g.1 }
      let result := result || g.2
      (result, light)
    else (result, light)
  if r.1 then (r.1, { r.2 with Attenuation := 1.0 / (r.2.Range + 1.0) }) else r

end Lights

/-! ## Scene -/

/-- Structure `Scene` (lines 365-377).  The material table is kept as its list
of entries, the camera (class defined outside `main.cpp`) as its position and
forward vector, the base shader as the GUID of the shader it points to. -/
structure Scene (α : Type) where
  Materials : List (Guid × Option (MaterialInfo α))
  Objects : List (RenderObject α)
  Lights : List (Light α)
  Camera : Option (Vec3 α × Vec3 α)
  BaseShader : Option Guid

/-- Method `Scene::FindObjectByName` (lines 392-397).  `std::find_if` returns
the first position whose element satisfies the predicate, or the end position;
the returned pointer is that position in `Objects`, `none` for `nullptr`.  The
scene is returned with the pointer as the method is not `const`. -/
def Scene.FindObjectByName {α : Type} (sc : Scene α) (name : String) :
    Scene α × Option Nat :=
  let it := sc.Objects.findIdx (fun obj => obj.Name == name)
  (sc, if it = sc.Objects.length then none else some it)

/-! ## The game loop on the scene -/

/-- The object pointers the game loop uses, obtained at lines 803-809 and
811-812, each kept as the position in `Objects` of the object it points to. -/
structure ObjectPointers where
  ball : Nat
  paddle : Nat
  brick1 : Nat
  brick2 : Nat
  brick3 : Nat
  brick4 : Nat
  brick5 : Nat
  winplane : Nat
  lossplane : Nat

/-- A read of `ptr->Position`: `none` if the pointer points to no object. -/
def getPosition {α : Type} (objs : List (RenderObject α)) (ptr : Nat) : Option (Vec3 α) :=
  (objs[ptr]?).map (fun o => o.Position)

/-- The positions the loop body reads through its pointers, put in the place
they have in `Game`; `none` if a pointer points to no object. -/
def readPositions {α : Type} (p : ObjectPointers) (g : Game α)
    (objs : List (RenderObject α)) : Option (Game α) :=
  match getPosition objs p.ball, getPosition objs p.paddle, getPosition objs p.brick1,
    getPosition objs p.brick2, getPosition objs p.brick3, getPosition objs p.brick4,
    getPosition objs p.brick5, getPosition objs p.winplane, getPosition objs p.lossplane with
  | some ball, some paddle, some b1, some b2, some b3, some b4, some b5, some w, some l =>
    some { g with ball := ball, paddle := paddle, brick1 := b1, brick2 := b2, brick3 := b3,
                  brick4 := b4, brick5 := b5, winplane := w, lossplane := l }
  | _, _, _, _, _, _, _, _, _ => none

/-- Library conversion of a JSON value to `std::string`: `none` where the
library throws a type error. -/
def Json.getString {α : Type} : Json α → Option String
  | .str s => some s
  | _ => none

/-- The string member with the given key: `data[key]` converted to
`std::string`. -/
def Json.memberString {α : Type} (key : String) (data : Json α) : Option String :=
  (data.member key).bind Json.getString

/-- What `main.cpp` uses and does not define.  `guidStr` is `Guid::str` and
`guidOfString` the constructor of a `Guid` from a string; `vecToJson` is
`GlmToJson` and `parseVec3` is `ParseJsonVec3`; `paramOfJson` takes the JSON
value given to `MeshBuilderParam::FromJson` to the JSON value that stands for
the parameter built; `bake` gives the GUID of the vertex array that
`MeshBuilder::Bake` creates from the parameters added. -/
structure Library (α : Type) where
  guidStr : Guid → String
  guidOfString : String → Guid
  vecToJson : Vec3 α → Json α
  parseVec3 : Json α → Option (Vec3 α)
  paramOfJson : Json α → Json α
  bake : List (Json α) → Guid

/-- Modelled from the spec: the asset registry (`ResourceManager`, defined
outside `main.cpp`), as the GUIDs of the shaders, meshes and textures it
holds. -/
structure Registry where
  shaders : List Guid
  meshes : List Guid
  textures : List Guid

/-- Modelled from the spec: `ResourceManager::GetShader`, a lookup by GUID that
returns a handle or null. -/
def Registry.GetShader (reg : Registry) (g : Guid) : Option Guid :=
  if g ∈ reg.shaders then some g else none

/-- Modelled from the spec: `ResourceManager::GetMesh`, a lookup by GUID that
returns a handle or null. -/
def Registry.GetMesh (reg : Registry) (g : Guid) : Option Guid :=
  if g ∈ reg.meshes then some g else none

/-- Modelled from the spec: `ResourceManager::GetTexture`, a lookup by GUID that
returns a handle or null. -/
def Registry.GetTexture (reg : Registry) (g : Guid) : Option Guid :=
  if g ∈ reg.textures then some g else none

/-- The material table of a scene, `std::unordered_map<Guid, MaterialInfo::Sptr>`,
as its list of entries. -/
abbrev MaterialTable (α : Type) : Type := List (Guid × Option (MaterialInfo α))

/-- Library operator `Materials[key]` read as a value: the value mapped to the
key; a key that is not in the table is first inserted with a null value. -/
def MaterialTable.index {α : Type} (t : MaterialTable α) (key : Guid) :
    MaterialTable α × Option (MaterialInfo α) :=
  match t.lookup key with
  | some v => (t, v)
  | none => (t ++ [(key, none)], none)

/-- Library operator `Materials[key] = value`: the key is mapped to the value,
in the entry it has or in a new one. -/
def MaterialTable.assign {α : Type} (t : MaterialTable α) (key : Guid)
    (value : Option (MaterialInfo α)) : MaterialTable α :=
  match t.lookup key with
  | some _ => t.map (fun e => if e.1 = key then (key, value) else e)
  | none => t ++ [(key, value)]

section Persistence

variable {α : Type} [LinearOrderedField α]

/-- Function `MaterialInfo::FromJson` (lines 197-207). -/
def MaterialInfo.FromJson (lib : Library α) (reg : Registry) (data : Json α) :
    Option (MaterialInfo α) :=
  match data.memberString "guid", data.memberString "name", data.memberString "shader",
    data.memberString "texture", (data.member "shininess").bind Json.getFloat with
  | some guid, some name, some shader, some texture, some shininess =>
    some { GUID := lib.guidOfString guid
           Name := name
           Shader := reg.GetShader (lib.guidOfString shader)
           Texture := reg.GetTexture (lib.guidOfString texture)
           Shininess := shininess }
  | _, _, _, _, _ => none

/-- Method `MaterialInfo::ToJson` (lines 212-220). -/
def MaterialInfo.ToJson (lib : Library α) (m : MaterialInfo α) : Json α :=
  .obj [("guid", .str (lib.guidStr m.GUID)),
        ("name", .str m.Name),
        ("shader", .str (match m.Shader with
                         | some g => lib.guidStr g
                         | none => "")),
        ("texture", .str (match m.Texture with
                          | some g => lib.guidStr g
                          | none => "")),
        ("shininess", .num m.Shininess)]

/-- Function `RenderObject::FromJson` (lines 281-303).  The object starts as
the default-constructed one (lines 247-256), whose `GUID` is overwritten at line
284; `Material` stays null here. -/
def RenderObject.FromJson (lib : Library α) (reg : Registry) (data : Json α) :
    Option (RenderObject α) :=
  match data.memberString "name", data.memberString "guid", data.memberString "mesh",
    (data.member "position").bind lib.parseVec3, (data.member "rotation").bind lib.parseVec3,
    (data.member "scale").bind lib.parseVec3 with
  | some name, some guid, some mesh, some position, some rotation, some scale =>
    let result : RenderObject α :=
      { Name := name
        GUID := lib.guidOfString guid
        Transform := 1
        Mesh := reg.GetMesh (lib.guidOfString mesh)
        Material := none
        MeshBuilderParams := []
        Position := position
        Rotation := rotation
        Scale := scale }
    match data.member "mesh_params" with
    | some (.arr meshbuilderParams) =>
      some { result with
        MeshBuilderParams := meshbuilderParams.map lib.paramOfJson
        Mesh := some (lib.bake (meshbuilderParams.map lib.paramOfJson)) }
    | _ => some result
  | _, _, _, _, _, _ => none

/-- Method `RenderObject::ToJson` (lines 308-327): `none` where a null `Mesh` or
`Material` is dereferenced. -/
def RenderObject.ToJson (lib : Library α) (o : RenderObject α) : Option (Json α) :=
  match o.Mesh, o.Material with
  | some mesh, some material =>
    some (.obj ([("name", .str o.Name),
                 ("guid", .str (lib.guidStr o.GUID)),
                 ("mesh", .str (lib.guidStr mesh)),
                 ("material", .str (lib.guidStr material.GUID)),
                 ("position", lib.vecToJson o.Position),
                 ("rotation", lib.vecToJson o.Rotation),
                 ("scale", lib.vecToJson o.Scale)]
                ++ (if o.MeshBuilderParams.length > 0
                    then [("mesh_params", .arr o.MeshBuilderParams)] else [])))
  | _, _ => none

/-- The materials loop of `Scene::FromJson` (lines 407-410), from the table
built so far. -/
def loadMaterials (lib : Library α) (reg : Registry) :
    List (Json α) → MaterialTable α → Option (MaterialTable α)
  | [], t => some t
  | material :: rest, t =>
    match MaterialInfo.FromJson lib reg material with
    | some mat => loadMaterials lib reg rest (t.assign mat.GUID (some mat))
    | none => none

/-- The objects loop of `Scene::FromJson` (lines 413-417), from the table as it
is: the table after the loop and the objects pushed, in array order. -/
def loadObjects (lib : Library α) (reg : Registry) :
    List (Json α) → MaterialTable α → Option (MaterialTable α × List (RenderObject α))
  | [], t => some (t, [])
  | object :: rest, t =>
    match RenderObject.FromJson lib reg object, object.memberString "material" with
    | some obj, some material =>
      match loadObjects lib reg rest (t.index (lib.guidOfString material)).1 with
      | some r =>
        some (r.1, { obj with Material := (t.index (lib.guidOfString material)).2 } :: r.2)
      | none => none
    | _, _ => none

/-- The lights loop of `Scene::FromJson` (lines 420-422). -/
def loadLights (lib : Library α) : List (Json α) → Option (List (Light α))
  | [] => some []
  | light :: rest =>
    match Light.FromJson lib.parseVec3 light, loadLights lib rest with
    | some l, some ls => some (l :: ls)
    | _, _ => none

/-- Function `Scene::FromJson` (lines 402-430): `none` where an assertion fails
or the library throws.  The camera is kept as the position and the forward
vector given to its setters. -/
def Scene.FromJson (lib : Library α) (reg : Registry) (data : Json α) : Option (Scene α) :=
  match data.memberString "default_shader", data.member "materials", data.member "objects",
    data.member "lights", data.member "camera" with
  | some shader, some (.arr materials), some (.arr objects), some (.arr lights), some camera =>
    match loadMaterials lib reg materials [] with
    | some t =>
      match loadObjects lib reg objects t, loadLights lib lights,
        (camera.member "position").bind lib.parseVec3,
        (camera.member "normal").bind lib.parseVec3 with
      | some r, some ls, some position, some normal =>
        some { BaseShader := reg.GetShader (lib.guidOfString shader)
               Materials := r.1
               Objects := r.2
               Lights := ls
               Camera := some (position, normal) }
      | _, _, _, _ => none
    | none => none
  | _, _, _, _, _ => none

/-- The materials loop of `Scene::ToJson` (lines 444-447): `none` where a null
entry is dereferenced. -/
def materialsToJson (lib : Library α) : MaterialTable α → Option (List (Json α))
  | [] => some []
  | e :: rest =>
    match e.2, materialsToJson lib rest with
    | some value, some js => some (MaterialInfo.ToJson lib value :: js)
    | _, _ => none

/-- The objects loop of `Scene::ToJson` (lines 453-455). -/
def objectsToJson (lib : Library α) : List (RenderObject α) → Option (List (Json α))
  | [] => some []
  | o :: rest =>
    match RenderObject.ToJson lib o, objectsToJson lib rest with
    | some j, some js => some (j :: js)
    | _, _ => none

/-- Method `Scene::ToJson` (lines 435-473): `none` where a null pointer is
dereferenced. -/
def Scene.ToJson (lib : Library α) (sc : Scene α) : Option (Json α) :=
  match sc.BaseShader, materialsToJson lib sc.Materials, objectsToJson lib sc.Objects,
    sc.Camera with
  | some shader, some materials, some objects, some camera =>
    some (.obj [("default_shader", .str (lib.guidStr shader)),
                ("materials", .arr materials),
                ("objects", .arr objects),
                ("lights", .arr (sc.Lights.map (Light.ToJson lib.vecToJson))),
                ("camera", .obj [("position", lib.vecToJson camera.1),
                                 ("normal", lib.vecToJson camera.2)])])
  | _, _, _, _ => none

end Persistence

/-! ## Predicates of the statements -/

/-- The invariant behind the exclusion of `win` and `lose`: every brick has `y ≤ 0`; the counter is five only once `win` is set; `win` is only set
with the ball within reach of a brick, `lose` only with the ball past the loss
line. -/
def PhaseInv (s : Game ℝ) : Prop :=
  s.brick1.y ≤ 0 ∧ s.brick2.y ≤ 0 ∧ s.brick3.y ≤ 0 ∧ s.brick4.y ≤ 0 ∧ s.brick5.y ≤ 0 ∧
  (s.brickCount = 5 → s.win = true) ∧
  (s.win = true → s.ball.y ≤ 0.93) ∧
  (s.lose = true → s.ball.y > 6)

/-- The five conditions of the if/else-if chain of the paddle bounce (lines 952,
957, 962, 967, 972), numbered in source order, for a ball at `x` and a paddle at
`px`.  The third condition ends at the `double` sum of line 962, the fourth
begins at the `float` sum of line 967. -/
def paddleZone {α : Type} [LinearOrderedField α] (i : Fin 5) (x px : α) : Prop :=
  match i with
  | 0 => x < px - 0.864
  | 1 => x ≥ px - 0.864 ∧ x < px - 0.288
  | 2 => x ≥ px - 0.288 ∧ x ≤ px + 0.288
  | 3 => x > roundFloat (px + roundFloat 0.288) ∧ x ≤ px + 0.864
  | 4 => x > px + 0.864

/-- The table maps the GUID to a material that has this GUID. -/
def MaterialTable.holds {α : Type} (t : MaterialTable α) (g : Guid) : Prop :=
  ∃ m : MaterialInfo α, t.lookup g = some (some m) ∧ m.GUID = g

/-- What the round trip is to keep of a render object: its `Name`, `GUID`,
`Position`, `Rotation` and `Scale`, the GUID of its material and the GUID of its
mesh. -/
def RenderObject.saved {α : Type} (o : RenderObject α) :
    String × Guid × Vec3 α × Vec3 α × Vec3 α × Option Guid × Option Guid :=
  (o.Name, o.GUID, o.Position, o.Rotation, o.Scale, o.Material.map (fun m => m.GUID), o.Mesh)

/-! ## Sample inputs -/

/-- The start state with the ball moved to `(3, 6.01)`: past the paddle, which is
at `x = 0`. -/
def missedBall : Game ℚ :=
  { (initialGame : Game ℚ) with ball := ⟨3, 6.01, 0⟩ }

/-- A ball on the seam between the third and the fourth zone of the paddle: the
paddle at `x = 2`, the ball at `(2.2880001068115234375, 5.5)`, moving down and
to the left with the speeds `(0.03, 0.03)`.  The `x` of the ball is the `float`
written `2.2880001f`. -/
def seamBall : Game ℚ :=
  { (initialGame : Game ℚ) with
    paddle := ⟨2, 5.8, 0⟩, ball := ⟨2.2880001068115234375, 5.5, 0⟩,
    dirX := -1, speedX := 0.03, speedY := 0.03 }

/-- A ball beyond the right wall, moving right: the start state with the ball
at `(7.3, 0)`, `dirX = 1` and `speedX = 0.03`. -/
def beyondWall {α : Type} [LinearOrderedField α] : Game α :=
  { (initialGame : Game α) with ball := ⟨7.3, 0, 0⟩, dirX := 1, speedX := 0.03 }

/-- A ball straight below a brick at the origin, at distance `0.93`, with the
speeds `(0.03, 0.04)`: combined speed `0.05`. -/
def speedSample {α : Type} [LinearOrderedField α] : Game α :=
  { (initialGame : Game α) with ball := ⟨0, 0.93, 0⟩, speedX := 0.03, speedY := 0.04 }

/-- A render object with `Rotation = (370, -10, 0)`. -/
def wrapSampleA {α : Type} [LinearOrderedField α] : RenderObject α where
  Name := "A"
  GUID := ⟨1⟩
  Transform := 1
  Mesh := none
  Material := none
  MeshBuilderParams := []
  Position := ⟨1, 2, 3⟩
  Rotation := ⟨370, -10, 0⟩
  Scale := ⟨2, 2, 2⟩

/-- A render object with the `Position` and `Scale` of `wrapSampleA` and
`Rotation = (10, 350, 0)`. -/
def wrapSampleB {α : Type} [LinearOrderedField α] : RenderObject α where
  Name := "B"
  GUID := ⟨2⟩
  Transform := 1
  Mesh := none
  Material := none
  MeshBuilderParams := []
  Position := ⟨1, 2, 3⟩
  Rotation := ⟨10, 350, 0⟩
  Scale := ⟨2, 2, 2⟩

/-- The light of the scene built in code (lines 689-691): default-constructed,
then given its position and colour. -/
def sceneLight : Light ℚ :=
  { Light.default ⟨0, 0, 0⟩ ⟨0, 0, 0⟩ with
    Position := ⟨0.0, 0.0, -33.0⟩, Color := ⟨20.0, 20.0, 20.0⟩ }

/-- A scene with three objects, the last two with the same name. -/
def lookupSample : Scene ℚ where
  Materials := []
  Objects := [{ (wrapSampleA : RenderObject ℚ) with Name := "Ball" },
              { (wrapSampleA : RenderObject ℚ) with Name := "Brick" },
              { (wrapSampleB : RenderObject ℚ) with Name := "Brick" }]
  Lights := []
  Camera := none
  BaseShader := none

/-- A library for the sample scenes: a GUID is printed as that many letters and
read back as the length of the string; vectors are written as arrays
`[x, y, z]`; every baked vertex array gets the GUID `1000`, which no sample
resource has. -/
def sampleLibrary {α : Type} [LinearOrderedField α] : Library α where
  guidStr g := String.mk (List.replicate g.value 'g')
  guidOfString s := ⟨s.length⟩
  vecToJson := GlmToJson
  parseVec3 := ParseJsonVec3
  paramOfJson j := j
  bake _ := ⟨1000⟩

/-- The registry after lines 621-639, with sample GUIDs: the shader `1`, the
meshes `circle.obj`, `paddle.obj`, `background.obj` as `2`, `3`, `4`, and the six
textures `5` to `10`. -/
def builtRegistry : Registry where
  shaders := [⟨1⟩]
  meshes := [⟨2⟩, ⟨3⟩, ⟨4⟩]
  textures := [⟨5⟩, ⟨6⟩, ⟨7⟩, ⟨8⟩, ⟨9⟩, ⟨10⟩]

/-- A material as lines 652-686 make one: the base shader, a texture and
`Shininess = 1`, under a sample GUID. -/
def builtMaterial {α : Type} [LinearOrderedField α] (guid texture : Nat) : MaterialInfo α where
  GUID := ⟨guid⟩
  Name := ""
  Shader := some ⟨1⟩
  Texture := some ⟨texture⟩
  Shininess := 1.0

/-- A render object as lines 712-794 make one, under a sample GUID. -/
def builtObject {α : Type} [LinearOrderedField α] (name : String) (guid mesh : Nat)
    (material : MaterialInfo α) (position rotation scale : Vec3 α) : RenderObject α where
  Name := name
  GUID := ⟨guid⟩
  Transform := 1
  Mesh := some ⟨mesh⟩
  Material := some material
  MeshBuilderParams := []
  Position := position
  Rotation := rotation
  Scale := scale

/-- The scene built at lines 645-794, with sample GUIDs; the camera is kept as
its position and the direction in which it looks at the origin. -/
def builtScene {α : Type} [LinearOrderedField α] : Scene α where
  BaseShader := some ⟨1⟩
  Materials := [(⟨11⟩, some (builtMaterial 11 6)), (⟨12⟩, some (builtMaterial 12 5)),
                (⟨13⟩, some (builtMaterial 13 7)), (⟨14⟩, some (builtMaterial 14 8)),
                (⟨15⟩, some (builtMaterial 15 9)), (⟨16⟩, some (builtMaterial 16 10))]
  Lights := [{ Light.default ⟨0, 0, 0⟩ ⟨0, 0, 0⟩ with
               Position := ⟨0.0, 0.0, -33.0⟩, Color := ⟨20.0, 20.0, 20.0⟩ }]
  Camera := some (⟨0, 0, 9⟩, ⟨0, 0, -1⟩)
  Objects :=
    [builtObject "Ball" 21 2 (builtMaterial 11 6) ⟨0.0, 0.0, 0.0⟩ ⟨0, 0, 0⟩ ⟨0.3, 0.3, 0.3⟩,
     builtObject "Paddle" 22 3 (builtMaterial 12 5) ⟨0.0, 5.8, 0.0⟩ ⟨180.0, -90.0, 0.0⟩
       ⟨1.0, 0.484, 0.23⟩,
     builtObject "Brick 1" 23 2 (builtMaterial 13 7) ⟨-4.3, -4.5, 0.0⟩ ⟨0, 0, 0⟩
       ⟨0.7, 0.7, 0.7⟩,
     builtObject "Brick 2" 24 2 (builtMaterial 13 7) ⟨-4.3, -0.52, 0.0⟩ ⟨0, 0, 0⟩
       ⟨0.7, 0.7, 0.7⟩,
     builtObject "Brick 3" 25 2 (builtMaterial 13 7) ⟨0.0, -2.5, 0.0⟩ ⟨0, 0, 0⟩
       ⟨0.7, 0.7, 0.7⟩,
     builtObject "Brick 4" 26 2 (builtMaterial 13 7) ⟨4.3, -4.5, 0.0⟩ ⟨0, 0, 0⟩
       ⟨0.7, 0.7, 0.7⟩,
     builtObject "Brick 5" 27 2 (builtMaterial 13 7) ⟨4.3, -0.52, 0.0⟩ ⟨0, 0, 0⟩
       ⟨0.7, 0.7, 0.7⟩,
     builtObject "back" 28 4 (builtMaterial 14 8) ⟨0.0, 0.0, -10.0⟩ ⟨-90.0, 0.0, 0.0⟩
       ⟨1.0, 1.0, 1.0⟩,
     builtObject "winscreen" 29 4 (builtMaterial 15 9) ⟨0.0, 0.0, -50.0⟩ ⟨-90.0, 0.0, 0.0⟩
       ⟨1.0, 1.0, 1.0⟩,
     builtObject "lossscreen" 30 4 (builtMaterial 16 10) ⟨0.0, 0.0, -50.0⟩ ⟨-90.0, 0.0, 0.0⟩
       ⟨1.0, 1.0, 1.0⟩]

/-- A scene with one object, which has a mesh of the registry and one mesh
builder parameter. -/
def paramScene {α : Type} [LinearOrderedField α] : Scene α where
  BaseShader := some ⟨1⟩
  Materials := [(⟨11⟩, some (builtMaterial 11 6))]
  Lights := []
  Camera := some (⟨0, 0, 9⟩, ⟨0, 0, -1⟩)
  Objects := [{ builtObject "Ball" 21 2 (builtMaterial 11 6) ⟨0.0, 0.0, 0.0⟩ ⟨0, 0, 0⟩
                  ⟨0.3, 0.3, 0.3⟩ with MeshBuilderParams := [.str "plane"] }]

/-- A scene blob with an empty materials array and one object, which names the
material GUID `11`. -/
def danglingBlob {α : Type} [LinearOrderedField α] : Json α :=
  .obj [("default_shader", .str ((sampleLibrary : Library α).guidStr ⟨1⟩)),
        ("materials", .arr []),
        ("objects", .arr [.obj [("name", .str "Ball"),
                                ("guid", .str ((sampleLibrary : Library α).guidStr ⟨21⟩)),
                                ("mesh", .str ((sampleLibrary : Library α).guidStr ⟨2⟩)),
                                ("material", .str ((sampleLibrary : Library α).guidStr ⟨11⟩)),
                                ("position", GlmToJson ⟨0.0, 0.0, 0.0⟩),
                                ("rotation", GlmToJson ⟨0, 0, 0⟩),
                                ("scale", GlmToJson ⟨0.3, 0.3, 0.3⟩)]]),
        ("lights", .arr []),
        ("camera", .obj [("position", GlmToJson ⟨0, 0, 9⟩), ("normal", GlmToJson ⟨0, 0, -1⟩)])]

/-! ## The game loop: what each step leaves unchanged -/

section Frames

variable {α : Type} [LinearOrderedField α]

theorem wallStep_frame (s : Game α) :
    (wallStep s).win = s.win ∧ (wallStep s).lose = s.lose ∧
    (wallStep s).speedX = s.speedX ∧ (wallStep s).speedY = s.speedY ∧
    (wallStep s).brickCount = s.brickCount ∧
    (wallStep s).ball = s.ball ∧ (wallStep s).paddle = s.paddle ∧
    (wallStep s).brick1 = s.brick1 ∧ (wallStep s).brick2 = s.brick2 ∧
    (wallStep s).brick3 = s.brick3 ∧ (wallStep s).brick4 = s.brick4 ∧
    (wallStep s).brick5 = s.brick5 ∧
    (wallStep s).winplane = s.winplane ∧ (wallStep s).lossplane = s.lossplane :=
  ⟨rfl, rfl, rfl, rfl, rfl, rfl, rfl, rfl, rfl, rfl, rfl, rfl, rfl, rfl⟩

theorem hitBrick_frame (sqrt : α → α) (b : Vec3 α) (s : Game α) :
    (hitBrick sqrt b s).2.win = s.win ∧ (hitBrick sqrt b s).2.lose = s.lose ∧
    (hitBrick sqrt b s).2.ball = s.ball ∧ (hitBrick sqrt b s).2.paddle = s.paddle ∧
    (hitBrick sqrt b s).2.brick1 = s.brick1 ∧ (hitBrick sqrt b s).2.brick2 = s.brick2 ∧
    (hitBrick sqrt b s).2.brick3 = s.brick3 ∧ (hitBrick sqrt b s).2.brick4 = s.brick4 ∧
    (hitBrick sqrt b s).2.brick5 = s.brick5 ∧
    (hitBrick sqrt b s).2.winplane = s.winplane ∧
    (hitBrick sqrt b s).2.lossplane = s.lossplane := by
  unfold hitBrick
  split_ifs <;> exact ⟨rfl, rfl, rfl, rfl, rfl, rfl, rfl, rfl, rfl, rfl, rfl⟩

theorem hitBrick_brickCount (sqrt : α → α) (b : Vec3 α) (s : Game α) :
    (hitBrick sqrt b s).2.brickCount =
      s.brickCount + (if inRange sqrt b s then 1 else 0) := by
  unfold hitBrick inRange
  split_ifs <;> first | rfl | exact (add_zero _).symm

theorem hitBrick_brick (sqrt : α → α) (b : Vec3 α) (s : Game α) :
    (hitBrick sqrt b s).1 = if inRange sqrt b s then ⟨-10, 0, 0⟩ else b := by
  unfold hitBrick inRange
  split_ifs <;> rfl

theorem bricksStep_frame (sqrt : α → α) (s : Game α) :
    (bricksStep sqrt s).win = s.win ∧ (bricksStep sqrt s).lose = s.lose ∧
    (bricksStep sqrt s).ball = s.ball ∧ (bricksStep sqrt s).paddle = s.paddle ∧
    (bricksStep sqrt s).winplane = s.winplane ∧
    (bricksStep sqrt s).lossplane = s.lossplane := by
  simp only [bricksStep, hitBrick_frame, and_self]

theorem bricksStep_bricks (sqrt : α → α) (s : Game α) :
    (bricksStep sqrt s).brick1 = (if inRange sqrt s.brick1 s then ⟨-10, 0, 0⟩ else s.brick1) ∧
    (bricksStep sqrt s).brick2 = (if inRange sqrt s.brick2 s then ⟨-10, 0, 0⟩ else s.brick2) ∧
    (bricksStep sqrt s).brick3 = (if inRange sqrt s.brick3 s then ⟨-10, 0, 0⟩ else s.brick3) ∧
    (bricksStep sqrt s).brick4 = (if inRange sqrt s.brick4 s then ⟨-10, 0, 0⟩ else s.brick4) ∧
    (bricksStep sqrt s).brick5 = (if inRange sqrt s.brick5 s then ⟨-10, 0, 0⟩ else s.brick5) := by
  simp only [bricksStep, hitBrick_frame, hitBrick_brick, inRange, and_self]

theorem bricksStep_brickCount (sqrt : α → α) (s : Game α) :
    (bricksStep sqrt s).brickCount = s.brickCount
      + (if inRange sqrt s.brick1 s then 1 else 0) + (if inRange sqrt s.brick2 s then 1 else 0)
      + (if inRange sqrt s.brick3 s then 1 else 0) + (if inRange sqrt s.brick4 s then 1 else 0)
      + (if inRange sqrt s.brick5 s then 1 else 0) := by
  simp only [bricksStep, hitBrick_frame, hitBrick_brickCount, inRange]

theorem paddleStep_frame (s : Game α) :
    (paddleStep s).win = s.win ∧ (paddleStep s).lose = s.lose ∧
    (paddleStep s).brickCount = s.brickCount ∧
    (paddleStep s).ball = s.ball ∧ (paddleStep s).paddle = s.paddle ∧
    (paddleStep s).brick1 = s.brick1 ∧ (paddleStep s).brick2 = s.brick2 ∧
    (paddleStep s).brick3 = s.brick3 ∧ (paddleStep s).brick4 = s.brick4 ∧
    (paddleStep s).brick5 = s.brick5 ∧
    (paddleStep s).winplane = s.winplane ∧ (paddleStep s).lossplane = s.lossplane := by
  unfold paddleStep
  dsimp only
  split_ifs <;> exact ⟨rfl, rfl, rfl, rfl, rfl, rfl, rfl, rfl, rfl, rfl, rfl, rfl⟩

theorem lossCheck_frame (s : Game α) :
    (lossCheck s).win = s.win ∧ (lossCheck s).dirX = s.dirX ∧ (lossCheck s).dirY = s.dirY ∧
    (lossCheck s).brickCount = s.brickCount ∧
    (lossCheck s).ball = s.ball ∧ (lossCheck s).paddle = s.paddle ∧
    (lossCheck s).brick1 = s.brick1 ∧ (lossCheck s).brick2 = s.brick2 ∧
    (lossCheck s).brick3 = s.brick3 ∧ (lossCheck s).brick4 = s.brick4 ∧
    (lossCheck s).brick5 = s.brick5 ∧
    (lossCheck s).winplane = s.winplane ∧ (lossCheck s).lossplane = s.lossplane := by
  unfold lossCheck
  split_ifs <;> exact ⟨rfl, rfl, rfl, rfl, rfl, rfl, rfl, rfl, rfl, rfl, rfl, rfl, rfl⟩

theorem lossCheck_lose (s : Game α) :
    (lossCheck s).lose = (s.lose || decide (s.ball.y > 6)) := by
  unfold lossCheck
  split_ifs with h <;> simp [h]

theorem lossCheck_speed (s : Game α) :
    (lossCheck s).speedX = (if s.ball.y > 6 then 0 else s.speedX) ∧
    (lossCheck s).speedY = (if s.ball.y > 6 then 0 else s.speedY) := by
  unfold lossCheck
  split_ifs with h <;> first | exact ⟨rfl, rfl⟩ | (constructor <;> norm_num)

theorem winCheck_frame (s : Game α) :
    (winCheck s).lose = s.lose ∧ (winCheck s).dirX = s.dirX ∧ (winCheck s).dirY = s.dirY ∧
    (winCheck s).speedX = s.speedX ∧ (winCheck s).speedY = s.speedY ∧
    (winCheck s).brickCount = s.brickCount ∧
    (winCheck s).ball = s.ball ∧ (winCheck s).paddle = s.paddle ∧
    (winCheck s).brick1 = s.brick1 ∧ (winCheck s).brick2 = s.brick2 ∧
    (winCheck s).brick3 = s.brick3 ∧ (winCheck s).brick4 = s.brick4 ∧
    (winCheck s).brick5 = s.brick5 ∧
    (winCheck s).winplane = s.winplane ∧ (winCheck s).lossplane = s.lossplane := by
  unfold winCheck
  split_ifs <;> exact ⟨rfl, rfl, rfl, rfl, rfl, rfl, rfl, rfl, rfl, rfl, rfl, rfl, rfl, rfl, rfl⟩

theorem winCheck_win (s : Game α) :
    (winCheck s).win = (s.win || decide (s.brickCount = 5)) := by
  unfold winCheck
  split_ifs with h <;> simp [h]

theorem moveBall_frame (s : Game α) :
    (moveBall s).win = s.win ∧ (moveBall s).lose = s.lose ∧
    (moveBall s).dirX = s.dirX ∧ (moveBall s).dirY = s.dirY ∧
    (moveBall s).speedX = s.speedX ∧ (moveBall s).speedY = s.speedY ∧
    (moveBall s).brickCount = s.brickCount ∧ (moveBall s).paddle = s.paddle ∧
    (moveBall s).brick1 = s.brick1 ∧ (moveBall s).brick2 = s.brick2 ∧
    (moveBall s).brick3 = s.brick3 ∧ (moveBall s).brick4 = s.brick4 ∧
    (moveBall s).brick5 = s.brick5 ∧
    (moveBall s).winplane = s.winplane ∧ (moveBall s).lossplane = s.lossplane := by
  unfold moveBall
  split_ifs <;> exact ⟨rfl, rfl, rfl, rfl, rfl, rfl, rfl, rfl, rfl, rfl, rfl, rfl, rfl, rfl, rfl⟩

theorem paddleMove_frame (keyA keyD : Bool) (s : Game α) :
    (paddleMove keyA keyD s).win = s.win ∧ (paddleMove keyA keyD s).lose = s.lose ∧
    (paddleMove keyA keyD s).dirX = s.dirX ∧ (paddleMove keyA keyD s).dirY = s.dirY ∧
    (paddleMove keyA keyD s).speedX = s.speedX ∧ (paddleMove keyA keyD s).speedY = s.speedY ∧
    (paddleMove keyA keyD s).brickCount = s.brickCount ∧ (paddleMove keyA keyD s).ball = s.ball ∧
    (paddleMove keyA keyD s).brick1 = s.brick1 ∧ (paddleMove keyA keyD s).brick2 = s.brick2 ∧
    (paddleMove keyA keyD s).brick3 = s.brick3 ∧ (paddleMove keyA keyD s).brick4 = s.brick4 ∧
    (paddleMove keyA keyD s).brick5 = s.brick5 ∧
    (paddleMove keyA keyD s).winplane = s.winplane ∧
    (paddleMove keyA keyD s).lossplane = s.lossplane := by
  unfold paddleMove
  split_ifs <;> exact ⟨rfl, rfl, rfl, rfl, rfl, rfl, rfl, rfl, rfl, rfl, rfl, rfl, rfl, rfl, rfl⟩

theorem overlays_frame (s : Game α) :
    (overlays s).win = s.win ∧ (overlays s).lose = s.lose ∧
    (overlays s).dirX = s.dirX ∧ (overlays s).dirY = s.dirY ∧
    (overlays s).speedX = s.speedX ∧ (overlays s).speedY = s.speedY ∧
    (overlays s).brickCount = s.brickCount ∧
    (overlays s).ball = s.ball ∧ (overlays s).paddle = s.paddle ∧
    (overlays s).brick1 = s.brick1 ∧ (overlays s).brick2 = s.brick2 ∧
    (overlays s).brick3 = s.brick3 ∧ (overlays s).brick4 = s.brick4 ∧
    (overlays s).brick5 = s.brick5 := by
  unfold overlays
  dsimp only
  split_ifs <;> exact ⟨rfl, rfl, rfl, rfl, rfl, rfl, rfl, rfl, rfl, rfl, rfl, rfl, rfl, rfl⟩

theorem tick_flags (sqrt : α → α) (keyA keyD : Bool) (s : Game α) :
    (tick sqrt keyA keyD s).brickCount = (bricksStep sqrt (wallStep s)).brickCount ∧
    (tick sqrt keyA keyD s).win
      = (s.win || decide ((bricksStep sqrt (wallStep s)).brickCount = 5)) ∧
    (tick sqrt keyA keyD s).lose = (s.lose || decide (s.ball.y > 6)) ∧
    (tick sqrt keyA keyD s).brick1 = (bricksStep sqrt (wallStep s)).brick1 ∧
    (tick sqrt keyA keyD s).brick2 = (bricksStep sqrt (wallStep s)).brick2 ∧
    (tick sqrt keyA keyD s).brick3 = (bricksStep sqrt (wallStep s)).brick3 ∧
    (tick sqrt keyA keyD s).brick4 = (bricksStep sqrt (wallStep s)).brick4 ∧
    (tick sqrt keyA keyD s).brick5 = (bricksStep sqrt (wallStep s)).brick5 := by
  simp only [tick, overlays_frame, paddleMove_frame, moveBall_frame, winCheck_frame,
    winCheck_win, lossCheck_frame, lossCheck_lose, paddleStep_frame, bricksStep_frame,
    wallStep_frame, and_self]

theorem tick_speed (sqrt : α → α) (keyA keyD : Bool) (s : Game α) :
    (tick sqrt keyA keyD s).speedX
      = (if s.ball.y > 6 then 0 else (paddleStep (bricksStep sqrt (wallStep s))).speedX) ∧
    (tick sqrt keyA keyD s).speedY
      = (if s.ball.y > 6 then 0 else (paddleStep (bricksStep sqrt (wallStep s))).speedY) := by
  simp only [tick, overlays_frame, paddleMove_frame, moveBall_frame, winCheck_frame,
    lossCheck_speed, paddleStep_frame, bricksStep_frame, wallStep_frame, and_self]

theorem tick_ball (sqrt : α → α) (keyA keyD : Bool) (s : Game α) :
    (tick sqrt keyA keyD s).ball =
      if (tick sqrt keyA keyD s).lose = true ∨ (tick sqrt keyA keyD s).win = true then s.ball
      else ⟨s.ball.x + (tick sqrt keyA keyD s).speedX * (tick sqrt keyA keyD s).dirX,
            s.ball.y + (tick sqrt keyA keyD s).speedY * (tick sqrt keyA keyD s).dirY * 2.0,
            s.ball.z + 0⟩ := by
  have e : (winCheck (lossCheck (paddleStep (bricksStep sqrt (wallStep s))))).ball = s.ball := by
    simp only [winCheck_frame, lossCheck_frame, paddleStep_frame, bricksStep_frame,
      wallStep_frame]
  unfold tick
  generalize winCheck (lossCheck (paddleStep (bricksStep sqrt (wallStep s)))) = w at e ⊢
  simp only [overlays_frame, paddleMove_frame, moveBall_frame]
  unfold moveBall
  rw [← e]
  cases w.lose <;> cases w.win <;> simp

end Frames

/-! ## Brick hit test -/

section BrickHit

theorem calcDist_le_iff (x1 y1 x2 y2 r : ℝ) (hr : 0 ≤ r) :
    calcDist Real.sqrt x1 y1 x2 y2 ≤ r ↔ (x2 - x1) ^ 2 + (y2 - y1) ^ 2 ≤ r ^ 2 := by
  unfold calcDist
  rw [Real.sqrt_le_iff]
  exact ⟨fun h => h.2, fun h => ⟨hr, h⟩⟩

theorem radii_sum : (brickRadius + radius : ℝ) = 0.93 := by
  unfold brickRadius radius; norm_num

/-- C1: the brick hit test is boundary-inclusive.  The sum of the two radii is
`0.63 + 0.3`; `calcDist` (with the real square root) is at most that sum exactly
when the squared Euclidean distance of the two centres is at most its square;
a brick whose distance is at most the sum (the boundary included) is hit: the
counter goes up by one and the brick is moved to `(-10, 0, 0)`; a brick strictly
farther away leaves the brick and every global unchanged. -/
theorem hitBrick_boundary_inclusive (brick : Vec3 ℝ) (s : Game ℝ) :
    (brickRadius + radius : ℝ) = 0.63 + 0.3 ∧
    (calcDist Real.sqrt brick.x brick.y s.ball.x s.ball.y ≤ brickRadius + radius ↔
      (s.ball.x - brick.x) ^ 2 + (s.ball.y - brick.y) ^ 2 ≤ (0.63 + 0.3) ^ 2) ∧
    (calcDist Real.sqrt brick.x brick.y s.ball.x s.ball.y ≤ brickRadius + radius →
      (hitBrick Real.sqrt brick s).2.brickCount = s.brickCount + 1 ∧
      (hitBrick Real.sqrt brick s).1 = ⟨-10, 0, 0⟩) ∧
    (brickRadius + radius < calcDist Real.sqrt brick.x brick.y s.ball.x s.ball.y →
      hitBrick Real.sqrt brick s = (brick, s)) := by
  refine ⟨by unfold brickRadius radius; norm_num, ?_, ?_, ?_⟩
  · rw [calcDist_le_iff _ _ _ _ _ (by rw [radii_sum]; norm_num), radii_sum]
    norm_num
  · intro h
    have hr : inRange Real.sqrt brick s := h
    rw [hitBrick_brickCount, hitBrick_brick, if_pos hr, if_pos hr]
    exact ⟨rfl, rfl⟩
  · intro h
    unfold hitBrick
    rw [if_neg (not_le.mpr h)]

theorem hitBrick_boundary_inclusive_witness :
    calcDist Real.sqrt (0.93 : ℝ) 0 (initialGame : Game ℝ).ball.x (initialGame : Game ℝ).ball.y
        ≤ brickRadius + radius ∧
      (hitBrick Real.sqrt ⟨0.93, 0, 0⟩ (initialGame : Game ℝ)).2.brickCount = 1 ∧
      (hitBrick Real.sqrt ⟨0.93, 0, 0⟩ (initialGame : Game ℝ)).1 = ⟨-10, 0, 0⟩ := by
  have h := hitBrick_boundary_inclusive ⟨0.93, 0, 0⟩ (initialGame : Game ℝ)
  have hd : calcDist Real.sqrt (0.93 : ℝ) 0 (initialGame : Game ℝ).ball.x
      (initialGame : Game ℝ).ball.y ≤ brickRadius + radius :=
    h.2.1.2 (by norm_num [initialGame])
  exact ⟨hd, by simpa [initialGame] using (h.2.2.1 hd).1, (h.2.2.1 hd).2⟩

end BrickHit

/-! ## Win and loss -/

section WinLoss

variable {α : Type} [LinearOrderedField α]

theorem bricksStep_brickCount_mono (sqrt : α → α) (s : Game α) :
    s.brickCount ≤ (bricksStep sqrt s).brickCount := by
  rw [bricksStep_brickCount]
  split_ifs <;> omega

theorem run_append_tick (sqrt : α → α) (keys : List (Bool × Bool)) (k : Bool × Bool)
    (s : Game α) : run sqrt (keys ++ [k]) s = tick sqrt k.1 k.2 (run sqrt keys s) := by
  induction keys generalizing s with
  | nil => rfl
  | cons a ks ih => exact ih (tick sqrt a.1 a.2 s)

theorem win_needs_five (sqrt : α → α) (keys : List (Bool × Bool)) (s0 : Game α)
    (h : s0.win = true → 5 ≤ s0.brickCount) :
    (run sqrt keys s0).win = true → 5 ≤ (run sqrt keys s0).brickCount := by
  induction keys generalizing s0 with
  | nil => exact h
  | cons k ks ih =>
    apply ih
    intro hw
    rw [(tick_flags sqrt k.1 k.2 s0).2.1] at hw
    rw [(tick_flags sqrt k.1 k.2 s0).1]
    rcases Bool.or_eq_true _ _ ▸ hw with h1 | h1
    · exact le_trans (h h1) (bricksStep_brickCount_mono sqrt (wallStep s0))
    · exact le_of_eq (of_decide_eq_true h1).symm

/-- C2: the win condition, over any run that starts with `brickCount = 0` and
`win = false`.  While the counter is below five `win` is false; the counter after
an iteration is the counter after its brick step, which is the old counter plus
one for every brick in range; an iteration whose brick step leaves the counter
below five ends with `win = false`; and the iteration in which the counter passes
from below five to five starts with `win = false` and ends with `win = true`. -/
theorem win_exactly_at_fifth_brick (sqrt : α → α) (s0 : Game α)
    (hc : s0.brickCount = 0) (hw : s0.win = false)
    (keys : List (Bool × Bool)) (keyA keyD : Bool) :
    ((run sqrt keys s0).brickCount < 5 → (run sqrt keys s0).win = false) ∧
    (tick sqrt keyA keyD (run sqrt keys s0)).brickCount
      = (bricksStep sqrt (wallStep (run sqrt keys s0))).brickCount ∧
    (bricksStep sqrt (wallStep (run sqrt keys s0))).brickCount
      = (run sqrt keys s0).brickCount
        + (if inRange sqrt (run sqrt keys s0).brick1 (run sqrt keys s0) then 1 else 0)
        + (if inRange sqrt (run sqrt keys s0).brick2 (run sqrt keys s0) then 1 else 0)
        + (if inRange sqrt (run sqrt keys s0).brick3 (run sqrt keys s0) then 1 else 0)
        + (if inRange sqrt (run sqrt keys s0).brick4 (run sqrt keys s0) then 1 else 0)
        + (if inRange sqrt (run sqrt keys s0).brick5 (run sqrt keys s0) then 1 else 0) ∧
    ((bricksStep sqrt (wallStep (run sqrt keys s0))).brickCount < 5 →
      (tick sqrt keyA keyD (run sqrt keys s0)).win = false) ∧
    ((run sqrt keys s0).brickCount < 5 →
      (bricksStep sqrt (wallStep (run sqrt keys s0))).brickCount = 5 →
      (run sqrt keys s0).win = false ∧ (tick sqrt keyA keyD (run sqrt keys s0)).win = true) := by
  have inv : ∀ ks : List (Bool × Bool),
      (run sqrt ks s0).brickCount < 5 → (run sqrt ks s0).win = false := by
    intro ks hlt
    by_contra hne
    have h5 := win_needs_five sqrt ks s0 (by simp [hw]) (by simpa using hne)
    omega
  refine ⟨inv keys, (tick_flags sqrt keyA keyD _).1, ?_, ?_, ?_⟩
  · have h := bricksStep_brickCount sqrt (wallStep (run sqrt keys s0))
    exact h
  · intro hlt
    have h := inv (keys ++ [(keyA, keyD)])
    rw [run_append_tick] at h
    exact h (by rw [(tick_flags sqrt keyA keyD _).1]; exact hlt)
  · intro hlt h5
    refine ⟨inv keys hlt, ?_⟩
    rw [(tick_flags sqrt keyA keyD _).2.1, h5]
    simp

theorem win_exactly_at_fifth_brick_witness :
    ({ (initialGame : Game ℝ) with
        brick1 := ⟨0, 0, 0⟩, brick2 := ⟨0, 0, 0⟩, brick3 := ⟨0, 0, 0⟩,
        brick4 := ⟨0, 0, 0⟩, brick5 := ⟨0, 0, 0⟩ } : Game ℝ).win = false ∧
    (tick Real.sqrt false false
      { (initialGame : Game ℝ) with
        brick1 := ⟨0, 0, 0⟩, brick2 := ⟨0, 0, 0⟩, brick3 := ⟨0, 0, 0⟩,
        brick4 := ⟨0, 0, 0⟩, brick5 := ⟨0, 0, 0⟩ }).win = true := by
  have h := (win_exactly_at_fifth_brick Real.sqrt
    { (initialGame : Game ℝ) with
        brick1 := ⟨0, 0, 0⟩, brick2 := ⟨0, 0, 0⟩, brick3 := ⟨0, 0, 0⟩,
        brick4 := ⟨0, 0, 0⟩, brick5 := ⟨0, 0, 0⟩ } rfl rfl [] false false).2.2.2.2
  refine h (by simp [run, initialGame]) ?_
  rw [bricksStep_brickCount]
  norm_num [run, wallStep, initialGame, inRange, calcDist, brickRadius, radius]

theorem tick_of_lose (sqrt : α → α) (keyA keyD : Bool) (s : Game α) (h : s.lose = true) :
    (tick sqrt keyA keyD s).lose = true ∧ (tick sqrt keyA keyD s).ball = s.ball := by
  have hl : (tick sqrt keyA keyD s).lose = true := by
    rw [(tick_flags sqrt keyA keyD s).2.2.1, h]; rfl
  refine ⟨hl, ?_⟩
  rw [tick_ball, if_pos (Or.inl hl)]

theorem run_of_lose (sqrt : α → α) (keys : List (Bool × Bool)) (s : Game α)
    (h : s.lose = true) :
    (run sqrt keys s).lose = true ∧ (run sqrt keys s).ball = s.ball := by
  induction keys generalizing s with
  | nil => exact ⟨h, rfl⟩
  | cons k ks ih =>
    have ht := tick_of_lose sqrt k.1 k.2 s h
    have hr := ih (tick sqrt k.1 k.2 s) ht.1
    exact ⟨hr.1, hr.2.trans ht.2⟩

/-- C3: the loss condition.  In a state whose ball is past the loss line
(`y > 6`) with the paddle not under it, one iteration sets both speeds to zero,
sets `lose`, and leaves the ball where it is; the ball stays there after any
further iterations, whatever the keys. -/
theorem loss_zeroes_speed_and_freezes_ball (sqrt : α → α) (s : Game α)
    (hy : s.ball.y > 6)
    (hx : s.ball.x < s.paddle.x - 1.44 ∨ s.paddle.x + 1.44 < s.ball.x)
    (keyA keyD : Bool) (keys : List (Bool × Bool)) :
    (tick sqrt keyA keyD s).speedX = 0 ∧ (tick sqrt keyA keyD s).speedY = 0 ∧
    (tick sqrt keyA keyD s).lose = true ∧
    (tick sqrt keyA keyD s).ball = s.ball ∧
    (run sqrt keys (tick sqrt keyA keyD s)).ball = s.ball := by
  have hl : (tick sqrt keyA keyD s).lose = true := by
    rw [(tick_flags sqrt keyA keyD s).2.2.1]; simp [hy]
  have hb : (tick sqrt keyA keyD s).ball = s.ball := by
    rw [tick_ball, if_pos (Or.inl hl)]
  refine ⟨?_, ?_, hl, hb, ?_⟩
  · rw [(tick_speed sqrt keyA keyD s).1, if_pos hy]
  · rw [(tick_speed sqrt keyA keyD s).2, if_pos hy]
  · rw [(run_of_lose sqrt keys _ hl).2, hb]

theorem loss_zeroes_speed_and_freezes_ball_witness :
    missedBall.ball.y > 6 ∧
    (missedBall.ball.x < missedBall.paddle.x - 1.44
      ∨ missedBall.paddle.x + 1.44 < missedBall.ball.x) ∧
    (tick id true false missedBall).speedX = 0 ∧
    (tick id true false missedBall).speedY = 0 ∧
    (tick id true false missedBall).lose = true ∧
    (tick id true false missedBall).ball = missedBall.ball ∧
    (run id [(false, true), (true, true)] (tick id true false missedBall)).ball
      = missedBall.ball :=
  ⟨by norm_num [missedBall], by norm_num [missedBall, initialGame],
    loss_zeroes_speed_and_freezes_ball id missedBall (by norm_num [missedBall])
      (by norm_num [missedBall, initialGame]) true false [(false, true), (true, true)]⟩

end WinLoss

/-! ## Paddle -/

section Paddle

variable {α : Type} [LinearOrderedField α]

/-- C6, as stated, fails: from `x = -6.1`, inside `[-6.12, 6.12]`, the key A
moves the paddle to `-6.15`, outside `[-6.12, 6.12]`. -/
theorem movePaddle_leaves_bounds :
    (-6.12 : ℚ) ≤ -6.1 ∧ (-6.1 : ℚ) ≤ 6.12 ∧
    movePaddle true false (-6.1 : ℚ) = -6.15 ∧
    ¬ ((-6.12 : ℚ) ≤ movePaddle true false (-6.1 : ℚ)
        ∧ movePaddle true false (-6.1 : ℚ) ≤ 6.12) := by
  have h : movePaddle true false (-6.1 : ℚ) = -6.15 := by
    norm_num [movePaddle]
  rw [h]
  norm_num

/-- C6, amended: from a position in `[-6.12, 6.12]` and for every combination of
the keys A and D, `movePaddle` returns a position in `[-6.17, 6.17]` (a step is
taken whenever the position before it is strictly inside the bound, so a bound
can be passed by less than one step); the result is the old position, or one
step of `0.05` to the left, or one to the right; it lies to the left of the old
position only if A is pressed and to the right only if D is pressed. -/
theorem movePaddle_within_one_step (keyA keyD : Bool) (xPos : α)
    (hlo : -6.12 ≤ xPos) (hhi : xPos ≤ 6.12) :
    (-6.17 ≤ movePaddle keyA keyD xPos ∧ movePaddle keyA keyD xPos ≤ 6.17) ∧
    (movePaddle keyA keyD xPos = xPos ∨ movePaddle keyA keyD xPos = xPos - 0.05
      ∨ movePaddle keyA keyD xPos = xPos + 0.05) ∧
    (movePaddle keyA keyD xPos < xPos → keyA = true) ∧
    (xPos < movePaddle keyA keyD xPos → keyD = true) := by
  have hL : ∀ x : α,
      (if keyA = true then (if x > -6.12 then x - 0.05 else x) else x) = x ∨
      (keyA = true ∧ x > -6.12 ∧
        (if keyA = true then (if x > -6.12 then x - 0.05 else x) else x) = x - 0.05) := by
    intro x
    by_cases h1 : keyA = true
    · by_cases h2 : x > -6.12
      · right; exact ⟨h1, h2, by rw [if_pos h1, if_pos h2]⟩
      · left; rw [if_pos h1, if_neg h2]
    · left; rw [if_neg h1]
  have hR : ∀ x : α,
      (if keyD = true then (if x < 6.12 then x + 0.05 else x) else x) = x ∨
      (keyD = true ∧ x < 6.12 ∧
        (if keyD = true then (if x < 6.12 then x + 0.05 else x) else x) = x + 0.05) := by
    intro x
    by_cases h1 : keyD = true
    · by_cases h2 : x < 6.12
      · right; exact ⟨h1, h2, by rw [if_pos h1, if_pos h2]⟩
      · left; rw [if_pos h1, if_neg h2]
    · left; rw [if_neg h1]
  unfold movePaddle
  dsimp only
  rcases hL xPos with e1 | ⟨a1, c1, e1⟩ <;> rw [e1]
  · rcases hR xPos with e2 | ⟨d2, c2, e2⟩ <;> rw [e2]
    · exact ⟨⟨by linarith, by linarith⟩, Or.inl rfl, fun h => absurd h (lt_irrefl _),
        fun h => absurd h (lt_irrefl _)⟩
    · exact ⟨⟨by linarith, by linarith⟩, Or.inr (Or.inr rfl),
        fun h => absurd h (by linarith), fun _ => d2⟩
  · rcases hR (xPos - 0.05) with e2 | ⟨d2, c2, e2⟩ <;> rw [e2]
    · exact ⟨⟨by linarith, by linarith⟩, Or.inr (Or.inl rfl), fun _ => a1,
        fun h => absurd h (by linarith)⟩
    · exact ⟨⟨by linarith, by linarith⟩, Or.inl (by ring), fun _ => a1, fun _ => d2⟩

theorem movePaddle_within_one_step_witness :
    (-6.12 : ℚ) ≤ -6.1 ∧ (-6.1 : ℚ) ≤ 6.12 ∧
    (-6.17 ≤ movePaddle true false (-6.1 : ℚ) ∧ movePaddle true false (-6.1 : ℚ) ≤ 6.17) ∧
    (movePaddle true false (-6.1 : ℚ) = -6.1 ∨ movePaddle true false (-6.1 : ℚ) = -6.1 - 0.05
      ∨ movePaddle true false (-6.1 : ℚ) = -6.1 + 0.05) :=
  ⟨by norm_num, by norm_num,
    (movePaddle_within_one_step true false (-6.1 : ℚ) (by norm_num) (by norm_num)).1,
    (movePaddle_within_one_step true false (-6.1 : ℚ) (by norm_num) (by norm_num)).2.1⟩

end Paddle

/-! ## Exclusive phases -/

section Phases

theorem inRange_ball_y (b : Vec3 ℝ) (s : Game ℝ) (h : inRange Real.sqrt b s) :
    s.ball.y ≤ b.y + 0.93 := by
  unfold inRange at h
  rw [calcDist_le_iff _ _ _ _ _ (by rw [radii_sum]; norm_num), radii_sum] at h
  nlinarith [sq_nonneg (s.ball.x - b.x), sq_nonneg (s.ball.y - b.y - 0.93)]

theorem relocated_y (b : Vec3 ℝ) (s : Game ℝ) (h : b.y ≤ 0) :
    (if inRange Real.sqrt b s then (⟨-10, 0, 0⟩ : Vec3 ℝ) else b).y ≤ 0 := by
  split_ifs
  · exact le_refl _
  · exact h

theorem PhaseInv_initial : PhaseInv initialGame := by
  unfold PhaseInv initialGame
  norm_num

theorem PhaseInv_tick (keyA keyD : Bool) (s : Game ℝ) (h : PhaseInv s) :
    PhaseInv (tick Real.sqrt keyA keyD s) := by
  obtain ⟨b1, b2, b3, b4, b5, hc, hw, hl⟩ := h
  have hf := tick_flags Real.sqrt keyA keyD s
  have hb := bricksStep_bricks Real.sqrt (wallStep s)
  have hn := bricksStep_brickCount Real.sqrt (wallStep s)
  have hlose : (tick Real.sqrt keyA keyD s).lose = true → s.ball.y > 6 := by
    intro h1
    rw [hf.2.2.1] at h1
    rcases Bool.or_eq_true _ _ ▸ h1 with h2 | h2
    · exact hl h2
    · exact of_decide_eq_true h2
  have hwin : (tick Real.sqrt keyA keyD s).win = true → s.ball.y ≤ 0.93 := by
    intro h1
    rw [hf.2.1] at h1
    rcases Bool.or_eq_true _ _ ▸ h1 with h2 | h2
    · exact hw h2
    · have h5 := of_decide_eq_true h2
      by_cases hwt : s.win = true
      · exact hw hwt
      · have hne : s.brickCount ≠ 5 := fun e => hwt (hc e)
        rw [hn] at h5
        have hs : (wallStep s).brickCount = s.brickCount := rfl
        rw [hs] at h5
        by_cases r1 : inRange Real.sqrt (wallStep s).brick1 (wallStep s)
        · have := inRange_ball_y _ _ r1
          have e1 : (wallStep s).brick1 = s.brick1 := rfl
          have e2 : (wallStep s).ball = s.ball := rfl
          rw [e1, e2] at this; linarith
        by_cases r2 : inRange Real.sqrt (wallStep s).brick2 (wallStep s)
        · have := inRange_ball_y _ _ r2
          have e1 : (wallStep s).brick2 = s.brick2 := rfl
          have e2 : (wallStep s).ball = s.ball := rfl
          rw [e1, e2] at this; linarith
        by_cases r3 : inRange Real.sqrt (wallStep s).brick3 (wallStep s)
        · have := inRange_ball_y _ _ r3
          have e1 : (wallStep s).brick3 = s.brick3 := rfl
          have e2 : (wallStep s).ball = s.ball := rfl
          rw [e1, e2] at this; linarith
        by_cases r4 : inRange Real.sqrt (wallStep s).brick4 (wallStep s)
        · have := inRange_ball_y _ _ r4
          have e1 : (wallStep s).brick4 = s.brick4 := rfl
          have e2 : (wallStep s).ball = s.ball := rfl
          rw [e1, e2] at this; linarith
        by_cases r5 : inRange Real.sqrt (wallStep s).brick5 (wallStep s)
        · have := inRange_ball_y _ _ r5
          have e1 : (wallStep s).brick5 = s.brick5 := rfl
          have e2 : (wallStep s).ball = s.ball := rfl
          rw [e1, e2] at this; linarith
        rw [if_neg r1, if_neg r2, if_neg r3, if_neg r4, if_neg r5] at h5
        exact absurd (by simpa using h5) hne
  refine ⟨?_, ?_, ?_, ?_, ?_, ?_, ?_, ?_⟩
  · rw [hf.2.2.2.1, hb.1]; exact relocated_y _ _ b1
  · rw [hf.2.2.2.2.1, hb.2.1]; exact relocated_y _ _ b2
  · rw [hf.2.2.2.2.2.1, hb.2.2.1]; exact relocated_y _ _ b3
  · rw [hf.2.2.2.2.2.2.1, hb.2.2.2.1]; exact relocated_y _ _ b4
  · rw [hf.2.2.2.2.2.2.2, hb.2.2.2.2]; exact relocated_y _ _ b5
  · intro h5
    rw [hf.1] at h5
    rw [hf.2.1, h5]
    simp
  · intro h1
    rw [tick_ball, if_pos (Or.inr h1)]
    exact hwin h1
  · intro h1
    rw [tick_ball, if_pos (Or.inl h1)]
    exact hlose h1

theorem PhaseInv_run (keys : List (Bool × Bool)) (s : Game ℝ) (h : PhaseInv s) :
    PhaseInv (run Real.sqrt keys s) := by
  induction keys generalizing s with
  | nil => exact h
  | cons k ks ih => exact ih _ (PhaseInv_tick k.1 k.2 s h)

/-- C5: `win` and `lose` are never both true.  In every state reached from the
start state of the scene built in code, by any number of iterations with any
A/D key input, at most one of the two flags is set. -/
theorem win_lose_exclusive (keys : List (Bool × Bool)) :
    ¬ ((run Real.sqrt keys (initialGame : Game ℝ)).win = true
        ∧ (run Real.sqrt keys (initialGame : Game ℝ)).lose = true) := by
  obtain ⟨-, -, -, -, -, -, hw, hl⟩ := PhaseInv_run keys initialGame PhaseInv_initial
  rintro ⟨h1, h2⟩
  linarith [hw h1, hl h2]

theorem win_lose_exclusive_witness :
    ¬ ((run Real.sqrt [(true, false), (false, true)] (initialGame : Game ℝ)).win = true
        ∧ (run Real.sqrt [(true, false), (false, true)] (initialGame : Game ℝ)).lose = true) :=
  win_lose_exclusive [(true, false), (false, true)]

end Phases

/-! ## Rotation wrap -/

section Rotation

theorem trunc_of_nonneg_lt_one {α : Type} [LinearOrderedField α] [FloorRing α] (q : α)
    (h0 : 0 ≤ q) (h1 : q < 1) : trunc q = 0 := by
  unfold trunc
  rw [if_pos h0, Int.floor_eq_iff]
  exact ⟨by simpa using h0, by simpa using h1⟩

theorem trunc_of_neg_gt_neg_one {α : Type} [LinearOrderedField α] [FloorRing α] (q : α)
    (h0 : q < 0) (h1 : -1 < q) : trunc q = 0 := by
  unfold trunc
  rw [if_neg (not_le.mpr h0), Int.ceil_eq_iff]
  exact ⟨by simpa using h1, by simpa using le_of_lt h0⟩

/-- `fmod` keeps a negative angle above `-360` as it is. -/
theorem fmod_neg_small {α : Type} [LinearOrderedField α] [FloorRing α] (x : α)
    (h0 : x < 0) (h1 : -360 < x) : fmod x 360 = x := by
  unfold fmod
  rw [trunc_of_neg_gt_neg_one (x / 360) (by apply div_neg_of_neg_of_pos h0; norm_num)
    (by rw [lt_div_iff₀ (by norm_num)]; linarith)]
  simp

/-- `fmod` keeps an angle of `[0, 360)` as it is. -/
theorem fmod_small {α : Type} [LinearOrderedField α] [FloorRing α] (x : α)
    (h0 : 0 ≤ x) (h1 : x < 360) : fmod x 360 = x := by
  unfold fmod
  rw [trunc_of_nonneg_lt_one (x / 360) (by positivity)
    (by rw [div_lt_iff₀ (by norm_num)]; linarith)]
  simp

/-- C7, on the paddle as the scene builds it (`Rotation = (180, -90, 0)`):
`RecalcTransform` leaves the second component at `-90`, which is not in
`[0, 360)`. -/
theorem RecalcTransform_keeps_negative_angle (cos sin : ℚ → ℚ) (pi : ℚ) (g : Guid)
    (mesh : Option Guid) (mat : Option (MaterialInfo ℚ)) :
    ((paddleObject g mesh mat).RecalcTransform cos sin pi).Rotation.y = -90 ∧
    ¬ (0 ≤ ((paddleObject g mesh mat).RecalcTransform cos sin pi).Rotation.y
        ∧ ((paddleObject g mesh mat).RecalcTransform cos sin pi).Rotation.y < 360) := by
  have h : ((paddleObject g mesh mat).RecalcTransform cos sin pi).Rotation.y = -90 := by
    have e : ((paddleObject g mesh mat).RecalcTransform cos sin pi).Rotation.y
        = fmod (-90.0 : ℚ) 360.0 := rfl
    rw [e]
    have e2 : (360.0 : ℚ) = 360 := by norm_num
    have e3 : (-90.0 : ℚ) = -90 := by norm_num
    rw [e2, e3]
    exact fmod_neg_small (-90) (by norm_num) (by norm_num)
  rw [h]
  norm_num

theorem fmod_370 : fmod (370 : ℝ) 360 = 10 := by
  have h : trunc ((370 : ℝ) / 360) = 1 := by
    unfold trunc
    rw [if_pos (by norm_num), Int.floor_eq_iff]
    constructor <;> norm_num
  unfold fmod
  rw [h]
  norm_num

theorem mat4_cast_neg {α : Type} [LinearOrderedField α] (q : Quat α) :
    mat4_cast ⟨-q.w, -q.x, -q.y, -q.z⟩ = mat4_cast q := by
  unfold mat4_cast
  simp only [neg_mul_neg]

theorem quatOfEuler_wrap :
    quatOfEuler Real.cos Real.sin (radians Real.pi ⟨10, 350, 0⟩)
      = ⟨-(quatOfEuler Real.cos Real.sin (radians Real.pi ⟨10, -10, 0⟩)).w,
         -(quatOfEuler Real.cos Real.sin (radians Real.pi ⟨10, -10, 0⟩)).x,
         -(quatOfEuler Real.cos Real.sin (radians Real.pi ⟨10, -10, 0⟩)).y,
         -(quatOfEuler Real.cos Real.sin (radians Real.pi ⟨10, -10, 0⟩)).z⟩ := by
  have ha : (350 : ℝ) * (Real.pi / 180) * 0.5 = -10 * (Real.pi / 180) * 0.5 + Real.pi := by
    ring
  have hc : Real.cos ((350 : ℝ) * (Real.pi / 180) * 0.5)
      = -Real.cos (-10 * (Real.pi / 180) * 0.5) := by
    rw [ha, Real.cos_add_pi]
  have hs : Real.sin ((350 : ℝ) * (Real.pi / 180) * 0.5)
      = -Real.sin (-10 * (Real.pi / 180) * 0.5) := by
    rw [ha, Real.sin_add_pi]
  unfold quatOfEuler radians
  dsimp only
  rw [hc, hs]
  congr 1 <;> ring

/-- C8: rotation wrap equivalence.  For two render objects with the same
`Position` and `Scale`, `RecalcTransform` with `Rotation = (370, -10, 0)` and
with `Rotation = (10, 350, 0)` yields the same `Transform`, over the reals with
the real cosine, sine and `π`. -/
theorem RecalcTransform_wrap_equivalence (o1 o2 : RenderObject ℝ)
    (hp : o1.Position = o2.Position) (hs : o1.Scale = o2.Scale)
    (h1 : o1.Rotation = ⟨370, -10, 0⟩) (h2 : o2.Rotation = ⟨10, 350, 0⟩) :
    (o1.RecalcTransform Real.cos Real.sin Real.pi).Transform
      = (o2.RecalcTransform Real.cos Real.sin Real.pi).Transform := by
  have e360 : (360.0 : ℝ) = 360 := by norm_num
  have r1 : fmod3 o1.Rotation ⟨360.0, 360.0, 360.0⟩ = (⟨10, -10, 0⟩ : Vec3 ℝ) := by
    rw [h1]
    unfold fmod3
    dsimp only
    rw [e360, fmod_370, fmod_neg_small (-10) (by norm_num) (by norm_num),
      fmod_small 0 (le_refl _) (by norm_num)]
  have r2 : fmod3 o2.Rotation ⟨360.0, 360.0, 360.0⟩ = (⟨10, 350, 0⟩ : Vec3 ℝ) := by
    rw [h2]
    unfold fmod3
    dsimp only
    rw [e360, fmod_small 10 (by norm_num) (by norm_num),
      fmod_small 350 (by norm_num) (by norm_num), fmod_small 0 (le_refl _) (by norm_num)]
  unfold RenderObject.RecalcTransform
  dsimp only
  rw [r1, r2, hp, hs, quatOfEuler_wrap, mat4_cast_neg]

theorem RecalcTransform_wrap_equivalence_witness :
    ((wrapSampleA : RenderObject ℝ).RecalcTransform Real.cos Real.sin Real.pi).Transform
      = ((wrapSampleB : RenderObject ℝ).RecalcTransform Real.cos Real.sin Real.pi).Transform :=
  RecalcTransform_wrap_equivalence wrapSampleA wrapSampleB rfl rfl rfl rfl

end Rotation

/-! ## Lights -/

section LightProofs

variable {α : Type} [LinearOrderedField α]

theorem ParseJsonVec3_GlmToJson (v : Vec3 α) : ParseJsonVec3 (GlmToJson v) = some v := by
  cases v
  rfl

theorem Light.FromJson_eq (parseVec3 : Json α → Option (Vec3 α)) (data p c : Json α)
    (position color : Vec3 α) (r : α)
    (hp : data.member "position" = some p) (hc : data.member "color" = some c)
    (hr : data.member "range" = some (.num r))
    (hpp : parseVec3 p = some position) (hpc : parseVec3 c = some color) :
    Light.FromJson parseVec3 data
      = some { Position := position, Color := color, Range := r,
               Attenuation := 1.0 / (1.0 + r) } := by
  unfold Light.FromJson
  rw [hp, hc, hr]
  dsimp only
  rw [hpp, hpc]
  rfl

theorem Light.FromJson_inv (parseVec3 : Json α → Option (Vec3 α)) (data : Json α)
    (l : Light α) (h : Light.FromJson parseVec3 data = some l) :
    l.Attenuation = 1 / (1 + l.Range) := by
  unfold Light.FromJson at h
  split at h
  · split at h
    · simp only [Option.some.injEq] at h
      rw [← h]
      norm_num
    · exact absurd h (by simp)
  · exact absurd h (by simp)

theorem DrawLightImGui_inv (header : Bool) (dragPos colorEdit : Widget (Vec3 α))
    (dragRange : Widget α) (light : Light α)
    (h : (DrawLightImGui header dragPos colorEdit dragRange light).1 = true) :
    (DrawLightImGui header dragPos colorEdit dragRange light).2.Attenuation
      = 1 / (1 + (DrawLightImGui header dragPos colorEdit dragRange light).2.Range) := by
  unfold DrawLightImGui at h ⊢
  dsimp only at h ⊢
  split_ifs at h ⊢ <;> first | contradiction | (dsimp only; rw [add_comm]; norm_num)

theorem Light.roundtrip (vecToJson : Vec3 α → Json α) (parseVec3 : Json α → Option (Vec3 α))
    (hv : ∀ v, parseVec3 (vecToJson v) = some v) (l : Light α)
    (hl : l.Attenuation = 1 / (1 + l.Range)) :
    Light.FromJson parseVec3 (Light.ToJson vecToJson l) = some l := by
  rw [Light.FromJson_eq parseVec3 (Light.ToJson vecToJson l) (vecToJson l.Position)
    (vecToJson l.Color) l.Position l.Color l.Range (by rfl) (by rfl) (by rfl) (hv _) (hv _)]
  cases l
  simp only [Option.some.injEq, Light.mk.injEq, true_and, and_true] at hl ⊢
  rw [hl]
  norm_num

/-- C9: the attenuation of a light is derived from its range.
`Attenuation = 1 / (1 + Range)` holds for a default-constructed light; a JSON
object with the three members, whose vectors parse and whose `range` is a number
`r ≥ 0`, loads as a light with `Range = r` and `Attenuation = 1 / (1 + r)`, and
every light `FromJson` returns satisfies the equation; so does the light left by
a call of `DrawLightImGui` that returns `true`; and `FromJson (ToJson l) = l`
for every light `l` that satisfies the equation, given that the vector parser
inverts the vector printer, although the output of `ToJson` does not depend on
`Attenuation`. -/
theorem light_attenuation_from_range :
    (∀ position color : Vec3 α,
      (Light.default position color).Attenuation
        = 1 / (1 + (Light.default position color).Range)) ∧
    (∀ (parseVec3 : Json α → Option (Vec3 α)) (data p c : Json α)
        (position color : Vec3 α) (r : α), 0 ≤ r →
      data.member "position" = some p → data.member "color" = some c →
      data.member "range" = some (.num r) →
      parseVec3 p = some position → parseVec3 c = some color →
      ∃ l, Light.FromJson parseVec3 data = some l ∧ l.Position = position ∧
        l.Color = color ∧ l.Range = r ∧ l.Attenuation = 1 / (1 + r)) ∧
    (∀ (parseVec3 : Json α → Option (Vec3 α)) (data : Json α) (l : Light α),
      Light.FromJson parseVec3 data = some l → l.Attenuation = 1 / (1 + l.Range)) ∧
    (∀ (header : Bool) (dragPos colorEdit : Widget (Vec3 α)) (dragRange : Widget α)
        (light : Light α),
      (DrawLightImGui header dragPos colorEdit dragRange light).1 = true →
      (DrawLightImGui header dragPos colorEdit dragRange light).2.Attenuation
        = 1 / (1 + (DrawLightImGui header dragPos colorEdit dragRange light).2.Range)) ∧
    (∀ (vecToJson : Vec3 α → Json α) (parseVec3 : Json α → Option (Vec3 α)),
      (∀ v, parseVec3 (vecToJson v) = some v) →
      ∀ l : Light α, l.Attenuation = 1 / (1 + l.Range) →
        Light.FromJson parseVec3 (Light.ToJson vecToJson l) = some l) ∧
    (∀ (vecToJson : Vec3 α → Json α) (l : Light α) (a : α),
      Light.ToJson vecToJson { l with Attenuation := a } = Light.ToJson vecToJson l) := by
  refine ⟨?_, ?_, Light.FromJson_inv, DrawLightImGui_inv, Light.roundtrip,
    fun _ _ _ => rfl⟩
  · intro position color
    unfold Light.default
    norm_num
  · intro parseVec3 data p c position color r _ hp hc hr hpp hpc
    refine ⟨_, Light.FromJson_eq parseVec3 data p c position color r hp hc hr hpp hpc,
      rfl, rfl, rfl, ?_⟩
    norm_num

theorem light_attenuation_from_range_witness :
    sceneLight.Attenuation = 1 / (1 + sceneLight.Range) ∧
    Light.FromJson ParseJsonVec3 (Light.ToJson GlmToJson sceneLight) = some sceneLight :=
  have h : sceneLight.Attenuation = 1 / (1 + sceneLight.Range) := by
    norm_num [sceneLight, Light.default]
  ⟨h, (@light_attenuation_from_range ℚ _).2.2.2.2.1 GlmToJson ParseJsonVec3
    ParseJsonVec3_GlmToJson sceneLight h⟩

end LightProofs

/-! ## Scene lookup -/

section SceneProofs

variable {α : Type}

/-- C10: `FindObjectByName` returns the first object, in the order of
`Objects`, whose `Name` is the argument.  The scene is unchanged; the result is
`nullptr` exactly when no object has that name; and it points to position `i`
exactly when the object at `i` has that name and no object before `i` has it. -/
theorem FindObjectByName_first_match (sc : Scene α) (name : String) :
    (sc.FindObjectByName name).1 = sc ∧
    ((sc.FindObjectByName name).2 = none ↔ ∀ o ∈ sc.Objects, o.Name ≠ name) ∧
    (∀ i : Nat, (sc.FindObjectByName name).2 = some i ↔
      (∃ o, sc.Objects[i]? = some o ∧ o.Name = name) ∧
      ∀ j, j < i → ∀ o, sc.Objects[j]? = some o → o.Name ≠ name) := by
  refine ⟨rfl, ?_, ?_⟩
  · unfold Scene.FindObjectByName
    simp only [List.findIdx_eq_length, beq_eq_false_iff_ne, ne_eq]
    split_ifs with h
    · simpa using h
    · simpa using h
  · intro i
    unfold Scene.FindObjectByName
    dsimp only
    constructor
    · intro h
      split_ifs at h with hlen
      have hi : List.findIdx (fun obj => obj.Name == name) sc.Objects = i := by
        simpa using h
      have hlt : i < sc.Objects.length := by
        rw [← hi]
        exact lt_of_le_of_ne (List.findIdx_le_length _) hlen
      rw [List.findIdx_eq hlt] at hi
      refine ⟨⟨sc.Objects.get ⟨i, hlt⟩, by simp, by simpa using hi.1⟩, ?_⟩
      intro j hj o ho
      have hjl : j < sc.Objects.length := hj.trans hlt
      have := hi.2 j hj
      rw [List.getElem?_eq_getElem hjl] at ho
      simp only [Option.some.injEq] at ho
      rw [ho] at this
      simpa using this
    · rintro ⟨⟨o, ho, hn⟩, hmin⟩
      have hlt : i < sc.Objects.length := by
        by_contra hge
        rw [List.getElem?_eq_none (not_lt.mp hge)] at ho
        exact absurd ho (by simp)
      have hi : List.findIdx (fun obj => obj.Name == name) sc.Objects = i := by
        rw [List.findIdx_eq hlt]
        rw [List.getElem?_eq_getElem hlt] at ho
        simp only [Option.some.injEq] at ho
        refine ⟨by rw [ho]; simpa using hn, ?_⟩
        intro j hj
        have hjl : j < sc.Objects.length := hj.trans hlt
        have := hmin j hj (sc.Objects.get ⟨j, hjl⟩) (by simp)
        simpa using this
      rw [hi, if_neg (ne_of_lt hlt)]

theorem FindObjectByName_first_match_witness :
    (lookupSample.FindObjectByName "Brick").2 = some 1 ∧
    (lookupSample.FindObjectByName "Paddle").2 = none := by
  constructor
  · refine ((FindObjectByName_first_match lookupSample "Brick").2.2 1).2 ⟨⟨_, rfl, rfl⟩, ?_⟩
    intro j hj o ho
    have hj0 : j = 0 := by omega
    subst hj0
    simp only [lookupSample, List.getElem?_cons_zero, Option.some.injEq] at ho
    rw [← ho]
    decide
  · refine (FindObjectByName_first_match lookupSample "Paddle").2.1.2 ?_
    intro o ho
    simp only [lookupSample, List.mem_cons, List.mem_singleton, List.not_mem_nil,
      or_false] at ho
    rcases ho with h | h | h <;> rw [h] <;> decide

end SceneProofs

/-! ## Wall bounce -/

section Wall

variable {α : Type} [LinearOrderedField α]

theorem hitBrick_miss (sqrt : α → α) (b : Vec3 α) (s : Game α) (h : ¬ inRange sqrt b s) :
    hitBrick sqrt b s = (b, s) := by
  unfold hitBrick
  unfold inRange at h
  rw [if_neg h]

theorem bricksStep_miss (sqrt : α → α) (s : Game α)
    (h1 : ¬ inRange sqrt s.brick1 s) (h2 : ¬ inRange sqrt s.brick2 s)
    (h3 : ¬ inRange sqrt s.brick3 s) (h4 : ¬ inRange sqrt s.brick4 s)
    (h5 : ¬ inRange sqrt s.brick5 s) : bricksStep sqrt s = s := by
  unfold bricksStep
  simp only [hitBrick_miss sqrt _ s h1, hitBrick_miss sqrt _ s h2, hitBrick_miss sqrt _ s h3,
    hitBrick_miss sqrt _ s h4, hitBrick_miss sqrt _ s h5]

theorem paddleStep_miss (s : Game α) (h : ¬ paddleTrigger s) : paddleStep s = s := by
  unfold paddleStep
  rw [if_neg h]

theorem tick_dir (sqrt : α → α) (keyA keyD : Bool) (s : Game α) :
    (tick sqrt keyA keyD s).dirX = (paddleStep (bricksStep sqrt (wallStep s))).dirX ∧
    (tick sqrt keyA keyD s).dirY = (paddleStep (bricksStep sqrt (wallStep s))).dirY := by
  simp only [tick, overlays_frame, paddleMove_frame, moveBall_frame, winCheck_frame,
    lossCheck_frame, and_self]

/-- C16: the wall bounce.  `dirX` is negated when `ball.x ≥ 7.21` or
`ball.x ≤ -7.21` and kept otherwise; `dirY` is negated when `ball.y ≤ -7.17` and
kept otherwise; the ball position and the two speeds are unchanged. -/
theorem wallStep_bounce (s : Game α) :
    ((s.ball.x ≥ 7.21 ∨ s.ball.x ≤ -7.21) → (wallStep s).dirX = -s.dirX) ∧
    (¬ (s.ball.x ≥ 7.21 ∨ s.ball.x ≤ -7.21) → (wallStep s).dirX = s.dirX) ∧
    (s.ball.y ≤ -7.17 → (wallStep s).dirY = -s.dirY) ∧
    (¬ s.ball.y ≤ -7.17 → (wallStep s).dirY = s.dirY) ∧
    (wallStep s).ball = s.ball ∧
    (wallStep s).speedX = s.speedX ∧ (wallStep s).speedY = s.speedY := by
  refine ⟨?_, ?_, ?_, ?_, rfl, rfl, rfl⟩
  · intro h
    show (if s.ball.x ≥ 7.21 ∨ s.ball.x ≤ -7.21 then s.dirX * -1 else s.dirX) = -s.dirX
    rw [if_pos h]; ring
  · intro h
    show (if s.ball.x ≥ 7.21 ∨ s.ball.x ≤ -7.21 then s.dirX * -1 else s.dirX) = s.dirX
    rw [if_neg h]
  · intro h
    show (if s.ball.y ≤ -7.17 then s.dirY * -1 else s.dirY) = -s.dirY
    rw [if_pos h]; ring
  · intro h
    show (if s.ball.y ≤ -7.17 then s.dirY * -1 else s.dirY) = s.dirY
    rw [if_neg h]

theorem wallStep_bounce_witness :
    ((wallStep ({ (initialGame : Game ℚ) with ball := ⟨7.3, -7.2, 0⟩, dirX := 1 })).dirX = -1) ∧
    ((wallStep ({ (initialGame : Game ℚ) with ball := ⟨7.3, -7.2, 0⟩, dirX := 1 })).dirY
      = -(initialGame : Game ℚ).dirY) :=
  ⟨(wallStep_bounce ({ (initialGame : Game ℚ) with ball := ⟨7.3, -7.2, 0⟩, dirX := 1 })).1
      (Or.inl (by norm_num)),
    (wallStep_bounce ({ (initialGame : Game ℚ) with ball := ⟨7.3, -7.2, 0⟩, dirX := 1 })).2.2.1
      (by norm_num)⟩

theorem wallStep_wallStep_dir (s : Game α) :
    (wallStep (wallStep s)).dirX = s.dirX ∧ (wallStep (wallStep s)).dirY = s.dirY := by
  constructor
  · show (if s.ball.x ≥ 7.21 ∨ s.ball.x ≤ -7.21 then
        (if s.ball.x ≥ 7.21 ∨ s.ball.x ≤ -7.21 then s.dirX * -1 else s.dirX) * -1
      else (if s.ball.x ≥ 7.21 ∨ s.ball.x ≤ -7.21 then s.dirX * -1 else s.dirX)) = s.dirX
    split_ifs <;> ring
  · show (if s.ball.y ≤ -7.17 then (if s.ball.y ≤ -7.17 then s.dirY * -1 else s.dirY) * -1
      else (if s.ball.y ≤ -7.17 then s.dirY * -1 else s.dirY)) = s.dirY
    split_ifs <;> ring

/-- C20: the wall bounce is a sign toggle.  Two wall steps at the same ball
position restore `dirX` and `dirY`.  Hence, for a ball at or beyond a side wall
that hits no brick and not the paddle in an iteration and is still at or beyond
a side wall after it, the wall step of the next iteration gives `dirX` the
value it had before the first one: a ball that arrived moving outward moves
outward again. -/
theorem wallStep_toggle (sqrt : α → α) (keyA keyD : Bool) (s : Game α) :
    (wallStep (wallStep s)).dirX = s.dirX ∧ (wallStep (wallStep s)).dirY = s.dirY ∧
    ((s.ball.x ≥ 7.21 ∨ s.ball.x ≤ -7.21) →
      ¬ inRange sqrt s.brick1 s → ¬ inRange sqrt s.brick2 s → ¬ inRange sqrt s.brick3 s →
      ¬ inRange sqrt s.brick4 s → ¬ inRange sqrt s.brick5 s →
      ¬ (s.ball.y ≥ 5.36 ∧ s.ball.x ≥ s.paddle.x - 1.44 ∧ s.ball.x ≤ s.paddle.x + 1.44) →
      ((tick sqrt keyA keyD s).ball.x ≥ 7.21 ∨ (tick sqrt keyA keyD s).ball.x ≤ -7.21) →
      (tick sqrt keyA keyD s).dirX = -s.dirX ∧
      (wallStep (tick sqrt keyA keyD s)).dirX = s.dirX) := by
  refine ⟨(wallStep_wallStep_dir s).1, (wallStep_wallStep_dir s).2, ?_⟩
  intro hw h1 h2 h3 h4 h5 hp hw2
  have hb : bricksStep sqrt (wallStep s) = wallStep s :=
    bricksStep_miss sqrt (wallStep s) h1 h2 h3 h4 h5
  have hpt : ¬ paddleTrigger (wallStep s) := hp
  have hd : (tick sqrt keyA keyD s).dirX = -s.dirX := by
    rw [(tick_dir sqrt keyA keyD s).1, hb, paddleStep_miss _ hpt]
    show (if s.ball.x ≥ 7.21 ∨ s.ball.x ≤ -7.21 then s.dirX * -1 else s.dirX) = -s.dirX
    rw [if_pos hw]; ring
  refine ⟨hd, ?_⟩
  show (if (tick sqrt keyA keyD s).ball.x ≥ 7.21 ∨ (tick sqrt keyA keyD s).ball.x ≤ -7.21
    then (tick sqrt keyA keyD s).dirX * -1 else (tick sqrt keyA keyD s).dirX) = s.dirX
  rw [if_pos hw2, hd]; ring

theorem beyondWall_no_brick (b : Vec3 ℝ) (hb : b.x ≤ 4.3) :
    ¬ inRange Real.sqrt b (beyondWall : Game ℝ) := by
  intro h
  unfold inRange at h
  rw [calcDist_le_iff _ _ _ _ _ (by rw [radii_sum]; norm_num), radii_sum] at h
  have hx : (beyondWall : Game ℝ).ball.x = 7.3 := rfl
  rw [hx] at h
  nlinarith [sq_nonneg ((beyondWall : Game ℝ).ball.y - b.y)]

theorem wallStep_toggle_witness :
    (tick Real.sqrt false false (beyondWall : Game ℝ)).ball.x = 7.27 ∧
    (tick Real.sqrt false false (beyondWall : Game ℝ)).dirX = -1 ∧
    (wallStep (tick Real.sqrt false false (beyondWall : Game ℝ))).dirX = 1 := by
  have hl : (tick Real.sqrt false false (beyondWall : Game ℝ)).lose = false := by
    rw [(tick_flags Real.sqrt false false _).2.2.1]
    norm_num [beyondWall, initialGame]
  have hm : bricksStep Real.sqrt (wallStep (beyondWall : Game ℝ)) = wallStep beyondWall :=
    bricksStep_miss Real.sqrt _
      (beyondWall_no_brick _ (by norm_num [wallStep, beyondWall, initialGame]))
      (beyondWall_no_brick _ (by norm_num [wallStep, beyondWall, initialGame]))
      (beyondWall_no_brick _ (by norm_num [wallStep, beyondWall, initialGame]))
      (beyondWall_no_brick _ (by norm_num [wallStep, beyondWall, initialGame]))
      (beyondWall_no_brick _ (by norm_num [wallStep, beyondWall, initialGame]))
  have hp : ¬ ((beyondWall : Game ℝ).ball.y ≥ 5.36
      ∧ (beyondWall : Game ℝ).ball.x ≥ (beyondWall : Game ℝ).paddle.x - 1.44
      ∧ (beyondWall : Game ℝ).ball.x ≤ (beyondWall : Game ℝ).paddle.x + 1.44) := by
    norm_num [beyondWall, initialGame]
  have hpm : paddleStep (wallStep (beyondWall : Game ℝ)) = wallStep beyondWall :=
    paddleStep_miss _ hp
  have hw : (tick Real.sqrt false false (beyondWall : Game ℝ)).win = false := by
    rw [(tick_flags Real.sqrt false false _).2.1, hm]
    norm_num [wallStep, beyondWall, initialGame]
  have hx : (tick Real.sqrt false false (beyondWall : Game ℝ)).ball.x = 7.27 := by
    rw [tick_ball, if_neg (by simp [hl, hw]), (tick_speed Real.sqrt false false _).1,
      (tick_dir Real.sqrt false false _).1, hm, hpm]
    norm_num [wallStep, beyondWall, initialGame]
  have h := (wallStep_toggle Real.sqrt false false (beyondWall : Game ℝ)).2.2
    (Or.inl (by norm_num [beyondWall]))
    (beyondWall_no_brick _ (by norm_num [beyondWall, initialGame]))
    (beyondWall_no_brick _ (by norm_num [beyondWall, initialGame]))
    (beyondWall_no_brick _ (by norm_num [beyondWall, initialGame]))
    (beyondWall_no_brick _ (by norm_num [beyondWall, initialGame]))
    (beyondWall_no_brick _ (by norm_num [beyondWall, initialGame]))
    hp (Or.inl (by rw [hx]; norm_num))
  refine ⟨hx, ?_, ?_⟩
  · rw [h.1]; norm_num [beyondWall]
  · rw [h.2]; norm_num [beyondWall]

end Wall

/-! ## Brick hit: directions -/

section HitDirection

variable {α : Type} [LinearOrderedField α]

theorem hitBrick_dir (sqrt : α → α) (brick : Vec3 α) (s : Game α)
    (h : inRange sqrt brick s) :
    (hitBrick sqrt brick s).2.dirX
      = (if brick.x < s.ball.x then 1 else if brick.x > s.ball.x then -1 else s.dirX) ∧
    (hitBrick sqrt brick s).2.dirY
      = (if brick.y < s.ball.y then 1 else if brick.y > s.ball.y then -1 else s.dirY) := by
  unfold hitBrick
  unfold inRange at h
  rw [if_pos h]
  exact ⟨rfl, rfl⟩

/-- C14: the direction after a brick hit.  `dirX` is `-1` if the brick is to the
right of the ball (`brick.x > ball.x`), `1` if it is to the left, and keeps its
value if the two `x` are equal; `dirY` likewise with the `y` coordinates.  The
brick position compared is the one before the relocation. -/
theorem hitBrick_direction (sqrt : α → α) (brick : Vec3 α) (s : Game α)
    (h : calcDist sqrt brick.x brick.y s.ball.x s.ball.y ≤ brickRadius + radius) :
    (brick.x > s.ball.x → (hitBrick sqrt brick s).2.dirX = -1) ∧
    (brick.x < s.ball.x → (hitBrick sqrt brick s).2.dirX = 1) ∧
    (brick.x = s.ball.x → (hitBrick sqrt brick s).2.dirX = s.dirX) ∧
    (brick.y > s.ball.y → (hitBrick sqrt brick s).2.dirY = -1) ∧
    (brick.y < s.ball.y → (hitBrick sqrt brick s).2.dirY = 1) ∧
    (brick.y = s.ball.y → (hitBrick sqrt brick s).2.dirY = s.dirY) := by
  have hd := hitBrick_dir sqrt brick s h
  refine ⟨?_, ?_, ?_, ?_, ?_, ?_⟩
  · intro hx
    rw [hd.1, if_neg (not_lt.mpr (le_of_lt hx)), if_pos hx]
  · intro hx
    rw [hd.1, if_pos hx]
  · intro hx
    rw [hd.1, if_neg (by rw [hx]; exact lt_irrefl _), if_neg (by rw [hx]; exact lt_irrefl _)]
  · intro hy
    rw [hd.2, if_neg (not_lt.mpr (le_of_lt hy)), if_pos hy]
  · intro hy
    rw [hd.2, if_pos hy]
  · intro hy
    rw [hd.2, if_neg (by rw [hy]; exact lt_irrefl _), if_neg (by rw [hy]; exact lt_irrefl _)]

theorem hitBrick_direction_witness :
    calcDist Real.sqrt (0 : ℝ) (-0.5) (initialGame : Game ℝ).ball.x (initialGame : Game ℝ).ball.y
      ≤ brickRadius + radius ∧
    (hitBrick Real.sqrt ⟨0, -0.5, 0⟩ (initialGame : Game ℝ)).2.dirX = 0 ∧
    (hitBrick Real.sqrt ⟨0, -0.5, 0⟩ (initialGame : Game ℝ)).2.dirY = 1 := by
  have hr : calcDist Real.sqrt (0 : ℝ) (-0.5) (initialGame : Game ℝ).ball.x
      (initialGame : Game ℝ).ball.y ≤ brickRadius + radius := by
    rw [calcDist_le_iff _ _ _ _ _ (by rw [radii_sum]; norm_num), radii_sum]
    norm_num [initialGame]
  have h := hitBrick_direction Real.sqrt ⟨0, -0.5, 0⟩ (initialGame : Game ℝ) hr
  refine ⟨hr, ?_, ?_⟩
  · rw [h.2.2.1 (by norm_num [initialGame])]
    rfl
  · exact h.2.2.2.2.1 (by norm_num [initialGame])

end HitDirection

/-! ## Integration and terminal states -/

section Integration

variable {α : Type} [LinearOrderedField α]

theorem tick_paddle (sqrt : α → α) (keyA keyD : Bool) (s : Game α) :
    (tick sqrt keyA keyD s).paddle =
      if (tick sqrt keyA keyD s).lose = true ∨ (tick sqrt keyA keyD s).win = true then s.paddle
      else { s.paddle with x := movePaddle keyA keyD s.paddle.x } := by
  have e : (moveBall (winCheck (lossCheck (paddleStep (bricksStep sqrt (wallStep s)))))).paddle
      = s.paddle := by
    simp only [moveBall_frame, winCheck_frame, lossCheck_frame, paddleStep_frame,
      bricksStep_frame, wallStep_frame]
  unfold tick
  generalize moveBall (winCheck (lossCheck (paddleStep (bricksStep sqrt (wallStep s))))) = w
    at e ⊢
  simp only [overlays_frame, paddleMove_frame]
  unfold paddleMove
  rw [← e]
  cases w.lose <;> cases w.win <;> simp

theorem tick_speed_playing (sqrt : α → α) (keyA keyD : Bool) (s : Game α)
    (hl : (tick sqrt keyA keyD s).lose = false) :
    (tick sqrt keyA keyD s).speedX = (paddleStep (bricksStep sqrt (wallStep s))).speedX ∧
    (tick sqrt keyA keyD s).speedY = (paddleStep (bricksStep sqrt (wallStep s))).speedY := by
  have hy : ¬ s.ball.y > 6 := by
    intro hy
    rw [(tick_flags sqrt keyA keyD s).2.2.1] at hl
    simp [hy] at hl
  rw [(tick_speed sqrt keyA keyD s).1, (tick_speed sqrt keyA keyD s).2, if_neg hy, if_neg hy]
  exact ⟨rfl, rfl⟩

/-- C17: integration.  An iteration that ends with `win` and `lose` both false
moves the ball by `(speedX * dirX, 2 * speedY * dirY, 0)`, with the speeds and
directions left by the wall, brick and paddle steps of that iteration; an
iteration that ends with `win` or `lose` true leaves the ball where it was. -/
theorem tick_integration (sqrt : α → α) (keyA keyD : Bool) (s : Game α) :
    ((tick sqrt keyA keyD s).win = false ∧ (tick sqrt keyA keyD s).lose = false →
      (tick sqrt keyA keyD s).ball =
        ⟨s.ball.x + (paddleStep (bricksStep sqrt (wallStep s))).speedX
            * (paddleStep (bricksStep sqrt (wallStep s))).dirX,
         s.ball.y + 2 * (paddleStep (bricksStep sqrt (wallStep s))).speedY
            * (paddleStep (bricksStep sqrt (wallStep s))).dirY,
         s.ball.z⟩) ∧
    ((tick sqrt keyA keyD s).win = true ∨ (tick sqrt keyA keyD s).lose = true →
      (tick sqrt keyA keyD s).ball = s.ball) := by
  constructor
  · rintro ⟨hw, hl⟩
    rw [tick_ball, if_neg (by simp [hw, hl]), (tick_speed_playing sqrt keyA keyD s hl).1,
      (tick_speed_playing sqrt keyA keyD s hl).2, (tick_dir sqrt keyA keyD s).1,
      (tick_dir sqrt keyA keyD s).2]
    congr 1
    · ring
    · exact add_zero _
  · intro h
    rw [tick_ball, if_pos h.symm]

theorem tick_integration_witness :
    (tick id false false (initialGame : Game ℚ)).win = false ∧
    (tick id false false (initialGame : Game ℚ)).lose = false ∧
    (tick id false false (initialGame : Game ℚ)).ball
      = ⟨(initialGame : Game ℚ).ball.x
          + (paddleStep (bricksStep id (wallStep (initialGame : Game ℚ)))).speedX
            * (paddleStep (bricksStep id (wallStep (initialGame : Game ℚ)))).dirX,
         (initialGame : Game ℚ).ball.y
          + 2 * (paddleStep (bricksStep id (wallStep (initialGame : Game ℚ)))).speedY
            * (paddleStep (bricksStep id (wallStep (initialGame : Game ℚ)))).dirY,
         (initialGame : Game ℚ).ball.z⟩ := by
  have hl : (tick id false false (initialGame : Game ℚ)).lose = false := by
    rw [(tick_flags id false false _).2.2.1]
    norm_num [initialGame]
  have hw : (tick id false false (initialGame : Game ℚ)).win = false := by
    rw [(tick_flags id false false _).2.1, bricksStep_brickCount]
    norm_num [wallStep, initialGame, inRange, calcDist, brickRadius, radius]
  exact ⟨hw, hl, (tick_integration id false false (initialGame : Game ℚ)).1 ⟨hw, hl⟩⟩

theorem tick_of_win (sqrt : α → α) (keyA keyD : Bool) (s : Game α) (h : s.win = true) :
    (tick sqrt keyA keyD s).win = true := by
  rw [(tick_flags sqrt keyA keyD s).2.1, h]
  rfl

theorem run_of_win (sqrt : α → α) (keys : List (Bool × Bool)) (s : Game α)
    (h : s.win = true) : (run sqrt keys s).win = true := by
  induction keys generalizing s with
  | nil => exact h
  | cons k ks ih => exact ih _ (tick_of_win sqrt k.1 k.2 s h)

/-- C18: the terminal states are absorbing.  Once `win` is true it is true
after any further iterations, and so is `lose`; an iteration that ends with
`win` or `lose` true leaves the paddle where it was, whatever the keys A and D
are. -/
theorem terminal_states_absorbing (sqrt : α → α) (s : Game α)
    (keys : List (Bool × Bool)) (keyA keyD : Bool) :
    (s.win = true → (run sqrt keys s).win = true) ∧
    (s.lose = true → (run sqrt keys s).lose = true) ∧
    ((tick sqrt keyA keyD s).win = true ∨ (tick sqrt keyA keyD s).lose = true →
      (tick sqrt keyA keyD s).paddle.x = s.paddle.x ∧
      (tick sqrt keyA keyD s).paddle = s.paddle) := by
  refine ⟨run_of_win sqrt keys s, fun h => (run_of_lose sqrt keys s h).1, ?_⟩
  intro h
  have hp : (tick sqrt keyA keyD s).paddle = s.paddle := by
    rw [tick_paddle, if_pos h.symm]
  exact ⟨by rw [hp], hp⟩

theorem terminal_states_absorbing_witness :
    (tick id true false missedBall).lose = true ∧
    (run id [(true, false), (false, true)] (tick id true false missedBall)).lose = true ∧
    (tick id true false missedBall).paddle.x = missedBall.paddle.x := by
  have hl : (tick id true false missedBall).lose = true := by
    rw [(tick_flags id true false _).2.2.1]
    norm_num [missedBall]
  exact ⟨hl,
    (terminal_states_absorbing id (tick id true false missedBall)
      [(true, false), (false, true)] true false).2.1 hl,
    ((terminal_states_absorbing id missedBall [] true false).2.2 (Or.inr hl)).1⟩

end Integration

/-! ## Single-precision rounding -/

section Rounding

variable {α : Type} [LinearOrderedField α]

theorem binadeDown_lt (n : Nat) (a p : α) (h : a < p) :
    binadeDown (n + 1) a p = binadeDown n a (p / 2) := by
  rw [binadeDown, if_pos h]

theorem binadeDown_ge (n : Nat) (a p : α) (h : ¬ a < p) : binadeDown (n + 1) a p = p := by
  rw [binadeDown, if_neg h]

theorem binadeUp_le (n : Nat) (a p : α) (h : 2 * p ≤ a) :
    binadeUp (n + 1) a p = binadeUp n a (2 * p) := by
  rw [binadeUp, if_pos h]

theorem binadeUp_gt (n : Nat) (a p : α) (h : ¬ 2 * p ≤ a) : binadeUp (n + 1) a p = p := by
  rw [binadeUp, if_neg h]

theorem floorBits_le (n : Nat) (q m : α) (h : m + 2 ^ n ≤ q) :
    floorBits (n + 1) q m = floorBits n q (m + 2 ^ n) := by
  rw [floorBits, if_pos h]

theorem floorBits_gt (n : Nat) (q m : α) (h : ¬ m + 2 ^ n ≤ q) :
    floorBits (n + 1) q m = floorBits n q m := by
  rw [floorBits, if_neg h]

theorem floorBits_zero (q m : α) : floorBits 0 q m = m := rfl

theorem roundFloat_of_nonneg (x p : α) (hx : 0 ≤ x) (hp : binade x = p) :
    roundFloat x = roundEven (x / (p / 2 ^ 23)) * (p / 2 ^ 23) := by
  unfold roundFloat
  rw [abs_of_nonneg hx, hp]
  exact if_pos hx

theorem roundEven_down (q m : α) (hm : floorBits 24 q 0 = m) (h : q - m < 1 / 2) :
    roundEven q = m := by
  unfold roundEven
  rw [hm]
  exact if_pos h

theorem roundEven_up (q m : α) (hm : floorBits 24 q 0 = m) (h : 1 / 2 < q - m) :
    roundEven q = m + 1 := by
  unfold roundEven
  rw [hm]
  dsimp only
  rw [if_neg (not_lt.mpr (le_of_lt h)), if_pos h]

theorem roundEven_tie_odd (q m k : α) (hm : floorBits 24 q 0 = m) (h : q - m = 1 / 2)
    (hk : floorBits 24 (q / 2) 0 = k) (hodd : 2 * k ≠ m) : roundEven q = m + 1 := by
  unfold roundEven
  rw [hm, hk]
  dsimp only
  rw [if_neg (by rw [h]; exact lt_irrefl _), if_neg (by rw [h]; exact lt_irrefl _), if_neg hodd]

theorem roundEven_tie_even (q m k : α) (hm : floorBits 24 q 0 = m) (h : q - m = 1 / 2)
    (hk : floorBits 24 (q / 2) 0 = k) (heven : 2 * k = m) : roundEven q = m := by
  unfold roundEven
  rw [hm, hk]
  dsimp only
  rw [if_neg (by rw [h]; exact lt_irrefl _), if_neg (by rw [h]; exact lt_irrefl _), if_pos heven]

/-- The `float` literal `0.288f` is the number `2415919 / 2 ^ 23`, a little
below `0.288`. -/
theorem roundFloat_literal : roundFloat (0.288 : ℚ) = 0.28799998760223388671875 := by
  have hb : binade (0.288 : ℚ) = 1 / 4 := by
    unfold binade
    rw [if_pos (by norm_num), binadeDown_lt _ _ _ (by norm_num),
      binadeDown_lt _ _ _ (by norm_num), binadeDown_ge _ _ _ (by norm_num)]
    norm_num
  have hq : (0.288 : ℚ) / (1 / 4 / 2 ^ 23) = 9663676.416 := by norm_num
  have hf : floorBits 24 (9663676.416 : ℚ) 0 = 9663676 := by
    iterate 24 (first
      | (rw [floorBits_le]; case h => norm_num)
      | (rw [floorBits_gt]; case h => norm_num))
    rw [floorBits_zero]; norm_num
  rw [roundFloat_of_nonneg _ _ (by norm_num) hb, hq, roundEven_down _ _ hf (by norm_num)]
  norm_num

/-- The `float` sum `2.0f + 0.288f`: the exact sum lies half way between two
`float`s and goes to the one above, `2.2880001068115234375`, which is greater
than `2 + 0.288`. -/
theorem roundFloat_seam :
    roundFloat (2 + roundFloat (0.288 : ℚ)) = 2.2880001068115234375 := by
  have hb : binade (2 + 0.28799998760223388671875 : ℚ) = 2 := by
    unfold binade
    rw [if_neg (by norm_num), binadeUp_le _ _ _ (by norm_num),
      binadeUp_gt _ _ _ (by norm_num)]
    norm_num
  have hq : (2 + 0.28799998760223388671875 : ℚ) / (2 / 2 ^ 23) = 9596567.5 := by norm_num
  have hf : floorBits 24 (9596567.5 : ℚ) 0 = 9596567 := by
    iterate 24 (first
      | (rw [floorBits_le]; case h => norm_num)
      | (rw [floorBits_gt]; case h => norm_num))
    rw [floorBits_zero]; norm_num
  have hk : floorBits 24 ((9596567.5 : ℚ) / 2) 0 = 4798283 := by
    iterate 24 (first
      | (rw [floorBits_le]; case h => norm_num)
      | (rw [floorBits_gt]; case h => norm_num))
    rw [floorBits_zero]; norm_num
  rw [roundFloat_literal, roundFloat_of_nonneg _ _ (by norm_num) hb, hq,
    roundEven_tie_odd _ _ _ hf (by norm_num) hk (by norm_num)]
  norm_num

/-- The paddle at `2` is the `float` `2.0f`. -/
theorem roundFloat_two : roundFloat (2 : ℚ) = 2 := by
  have hb : binade (2 : ℚ) = 2 := by
    unfold binade
    rw [if_neg (by norm_num), binadeUp_le _ _ _ (by norm_num),
      binadeUp_gt _ _ _ (by norm_num)]
    norm_num
  have hq : (2 : ℚ) / (2 / 2 ^ 23) = 8388608 := by norm_num
  have hf : floorBits 24 (8388608 : ℚ) 0 = 8388608 := by
    iterate 24 (first
      | (rw [floorBits_le]; case h => norm_num)
      | (rw [floorBits_gt]; case h => norm_num))
    rw [floorBits_zero]; norm_num
  rw [roundFloat_of_nonneg _ _ (by norm_num) hb, hq, roundEven_down _ _ hf (by norm_num)]
  norm_num

/-- The ball position `2.2880001068115234375` is a `float`. -/
theorem roundFloat_seam_fixed :
    roundFloat (2.2880001068115234375 : ℚ) = 2.2880001068115234375 := by
  have hb : binade (2.2880001068115234375 : ℚ) = 2 := by
    unfold binade
    rw [if_neg (by norm_num), binadeUp_le _ _ _ (by norm_num),
      binadeUp_gt _ _ _ (by norm_num)]
    norm_num
  have hq : (2.2880001068115234375 : ℚ) / (2 / 2 ^ 23) = 9596568 := by norm_num
  have hf : floorBits 24 (9596568 : ℚ) 0 = 9596568 := by
    iterate 24 (first
      | (rw [floorBits_le]; case h => norm_num)
      | (rw [floorBits_gt]; case h => norm_num))
    rw [floorBits_zero]; norm_num
  rw [roundFloat_of_nonneg _ _ (by norm_num) hb, hq, roundEven_down _ _ hf (by norm_num)]
  norm_num

end Rounding

/-! ## Paddle zones -/

section Zones

variable {α : Type} [LinearOrderedField α]

/-- A triggered paddle bounce takes the branch of the first of the five
conditions that holds, and no branch when none holds. -/
theorem paddleStep_eq_zone (s : Game α) (h : paddleTrigger s) :
    (paddleZone 0 s.ball.x s.paddle.x ∧ paddleStep s =
      { s with dirY := -1, dirX := -1, speedX := 0.015 * 2, speedY := 0.015 * 2 }) ∨
    (paddleZone 1 s.ball.x s.paddle.x ∧ paddleStep s =
      { s with dirY := -1, dirX := -1, speedX := 0.0061 * 2, speedY := 0.0148 * 2 }) ∨
    (paddleZone 2 s.ball.x s.paddle.x ∧ paddleStep s =
      { s with dirY := -1, dirX := 0, speedX := 0.0, speedY := 0.011 * 2 }) ∨
    (paddleZone 3 s.ball.x s.paddle.x ∧ paddleStep s =
      { s with dirY := -1, dirX := 1, speedX := 0.0061 * 2, speedY := 0.0148 * 2 }) ∨
    (paddleZone 4 s.ball.x s.paddle.x ∧ paddleStep s =
      { s with dirY := -1, dirX := 1, speedX := 0.015 * 2, speedY := 0.015 * 2 }) ∨
    ((∀ i : Fin 5, ¬ paddleZone i s.ball.x s.paddle.x) ∧ paddleStep s =
      { s with dirY := -1 }) := by
  unfold paddleStep
  rw [if_pos h]
  dsimp only
  by_cases h1 : s.ball.x < s.paddle.x - 0.864
  · rw [if_pos h1]; exact Or.inl ⟨h1, rfl⟩
  rw [if_neg h1]
  by_cases h2 : s.ball.x ≥ s.paddle.x - 0.864 ∧ s.ball.x < s.paddle.x - 0.288
  · rw [if_pos h2]; exact Or.inr (Or.inl ⟨h2, rfl⟩)
  rw [if_neg h2]
  by_cases h3 : s.ball.x ≥ s.paddle.x - 0.288 ∧ s.ball.x ≤ s.paddle.x + 0.288
  · rw [if_pos h3]; exact Or.inr (Or.inr (Or.inl ⟨h3, rfl⟩))
  rw [if_neg h3]
  by_cases h4 : s.ball.x > roundFloat (s.paddle.x + roundFloat 0.288)
      ∧ s.ball.x ≤ s.paddle.x + 0.864
  · rw [if_pos h4]; exact Or.inr (Or.inr (Or.inr (Or.inl ⟨h4, rfl⟩)))
  rw [if_neg h4]
  by_cases h5 : s.ball.x > s.paddle.x + 0.864
  · rw [if_pos h5]; exact Or.inr (Or.inr (Or.inr (Or.inr (Or.inl ⟨h5, rfl⟩))))
  rw [if_neg h5]
  refine Or.inr (Or.inr (Or.inr (Or.inr (Or.inr ⟨?_, rfl⟩))))
  intro i
  fin_cases i
  · exact h1
  · exact h2
  · exact h3
  · exact h4
  · exact h5

/-- A triggered paddle bounce for which none of the five conditions holds
changes `dirY` and nothing else. -/
theorem paddleStep_gap (s : Game α) (h : paddleTrigger s)
    (hz : ∀ i : Fin 5, ¬ paddleZone i s.ball.x s.paddle.x) :
    paddleStep s = { s with dirY := -1 } := by
  rcases paddleStep_eq_zone s h with ⟨z, -⟩ | ⟨z, -⟩ | ⟨z, -⟩ | ⟨z, -⟩ | ⟨z, -⟩ | ⟨-, e⟩
  · exact absurd z (hz 0)
  · exact absurd z (hz 1)
  · exact absurd z (hz 2)
  · exact absurd z (hz 3)
  · exact absurd z (hz 4)
  · exact e

/-- The paddle zone mapping as the code has it.  When the bounce triggers,
`dirY` becomes `-1` and, with `d = ball.x - paddle.x`, the triple
`(dirX, speedX, speedY)` becomes `(-1, 0.030, 0.030)` for `d < -0.864`,
`(-1, 0.0122, 0.0296)` for `-0.864 ≤ d < -0.288`, `(0, 0, 0.022)` for
`-0.288 ≤ d ≤ 0.288`, `(1, 0.030, 0.030)` for `d > 0.864`; for
`0.288 < d ≤ 0.864` it becomes `(1, 0.0122, 0.0296)` if the ball is beyond the
`float` sum of line 967 and keeps its value if not.  When the bounce does not
trigger, the four variables keep their values. -/
theorem paddleStep_zones (s : Game α) :
    ((s.ball.y ≥ 5.36 ∧ s.paddle.x - 1.44 ≤ s.ball.x ∧ s.ball.x ≤ s.paddle.x + 1.44) →
      (paddleStep s).dirY = -1 ∧
      (s.ball.x - s.paddle.x < -0.864 →
        (paddleStep s).dirX = -1 ∧ (paddleStep s).speedX = 0.030 ∧
        (paddleStep s).speedY = 0.030) ∧
      (-0.864 ≤ s.ball.x - s.paddle.x ∧ s.ball.x - s.paddle.x < -0.288 →
        (paddleStep s).dirX = -1 ∧ (paddleStep s).speedX = 0.0122 ∧
        (paddleStep s).speedY = 0.0296) ∧
      (-0.288 ≤ s.ball.x - s.paddle.x ∧ s.ball.x - s.paddle.x ≤ 0.288 →
        (paddleStep s).dirX = 0 ∧ (paddleStep s).speedX = 0 ∧
        (paddleStep s).speedY = 0.022) ∧
      (0.288 < s.ball.x - s.paddle.x ∧ s.ball.x - s.paddle.x ≤ 0.864 →
        (roundFloat (s.paddle.x + roundFloat 0.288) < s.ball.x →
          (paddleStep s).dirX = 1 ∧ (paddleStep s).speedX = 0.0122 ∧
          (paddleStep s).speedY = 0.0296) ∧
        (s.ball.x ≤ roundFloat (s.paddle.x + roundFloat 0.288) →
          (paddleStep s).dirX = s.dirX ∧ (paddleStep s).speedX = s.speedX ∧
          (paddleStep s).speedY = s.speedY)) ∧
      (0.864 < s.ball.x - s.paddle.x →
        (paddleStep s).dirX = 1 ∧ (paddleStep s).speedX = 0.030 ∧
        (paddleStep s).speedY = 0.030)) ∧
    (¬ (s.ball.y ≥ 5.36 ∧ s.paddle.x - 1.44 ≤ s.ball.x ∧ s.ball.x ≤ s.paddle.x + 1.44) →
      (paddleStep s).dirX = s.dirX ∧ (paddleStep s).dirY = s.dirY ∧
      (paddleStep s).speedX = s.speedX ∧ (paddleStep s).speedY = s.speedY) := by
  constructor
  · intro ht
    have htrig : paddleTrigger s := ht
    refine ⟨?_, ?_, ?_, ?_, ?_, ?_⟩
    · unfold paddleStep
      rw [if_pos htrig]
      dsimp only
      split_ifs <;> rfl
    · intro hd
      have h1 : s.ball.x < s.paddle.x - 0.864 := by linarith
      unfold paddleStep
      rw [if_pos htrig]
      dsimp only
      rw [if_pos h1]
      refine ⟨rfl, ?_, ?_⟩ <;> norm_num
    · intro hd
      have h1 : ¬ s.ball.x < s.paddle.x - 0.864 := by linarith [hd.1]
      have h2 : s.ball.x ≥ s.paddle.x - 0.864 ∧ s.ball.x < s.paddle.x - 0.288 :=
        ⟨by linarith [hd.1], by linarith [hd.2]⟩
      unfold paddleStep
      rw [if_pos htrig]
      dsimp only
      rw [if_neg h1, if_pos h2]
      refine ⟨rfl, ?_, ?_⟩ <;> norm_num
    · intro hd
      have h1 : ¬ s.ball.x < s.paddle.x - 0.864 := by linarith [hd.1]
      have h2 : ¬ (s.ball.x ≥ s.paddle.x - 0.864 ∧ s.ball.x < s.paddle.x - 0.288) := by
        intro h; linarith [hd.1, h.2]
      have h3 : s.ball.x ≥ s.paddle.x - 0.288 ∧ s.ball.x ≤ s.paddle.x + 0.288 :=
        ⟨by linarith [hd.1], by linarith [hd.2]⟩
      unfold paddleStep
      rw [if_pos htrig]
      dsimp only
      rw [if_neg h1, if_neg h2, if_pos h3]
      refine ⟨rfl, ?_, ?_⟩ <;> norm_num
    · intro hd
      have h1 : ¬ s.ball.x < s.paddle.x - 0.864 := by linarith [hd.1]
      have h2 : ¬ (s.ball.x ≥ s.paddle.x - 0.864 ∧ s.ball.x < s.paddle.x - 0.288) := by
        intro h; linarith [hd.1, h.2]
      have h3 : ¬ (s.ball.x ≥ s.paddle.x - 0.288 ∧ s.ball.x ≤ s.paddle.x + 0.288) := by
        intro h; linarith [hd.1, h.2]
      constructor
      · intro hf
        have h4 : s.ball.x > roundFloat (s.paddle.x + roundFloat 0.288)
            ∧ s.ball.x ≤ s.paddle.x + 0.864 := ⟨hf, by linarith [hd.2]⟩
        unfold paddleStep
        rw [if_pos htrig]
        dsimp only
        rw [if_neg h1, if_neg h2, if_neg h3, if_pos h4]
        refine ⟨rfl, ?_, ?_⟩ <;> norm_num
      · intro hf
        have h4 : ¬ (s.ball.x > roundFloat (s.paddle.x + roundFloat 0.288)
            ∧ s.ball.x ≤ s.paddle.x + 0.864) := fun h => absurd h.1 (not_lt.mpr hf)
        have h5 : ¬ s.ball.x > s.paddle.x + 0.864 := by
          intro h; linarith [hd.2]
        unfold paddleStep
        rw [if_pos htrig]
        dsimp only
        rw [if_neg h1, if_neg h2, if_neg h3, if_neg h4, if_neg h5]
        exact ⟨rfl, rfl, rfl⟩
    · intro hd
      have h1 : ¬ s.ball.x < s.paddle.x - 0.864 := by linarith
      have h2 : ¬ (s.ball.x ≥ s.paddle.x - 0.864 ∧ s.ball.x < s.paddle.x - 0.288) := by
        intro h; linarith [h.2]
      have h3 : ¬ (s.ball.x ≥ s.paddle.x - 0.288 ∧ s.ball.x ≤ s.paddle.x + 0.288) := by
        intro h; linarith [h.2]
      have h4 : ¬ (s.ball.x > roundFloat (s.paddle.x + roundFloat 0.288)
          ∧ s.ball.x ≤ s.paddle.x + 0.864) := by
        intro h; linarith [h.2]
      have h5 : s.ball.x > s.paddle.x + 0.864 := by linarith
      unfold paddleStep
      rw [if_pos htrig]
      dsimp only
      rw [if_neg h1, if_neg h2, if_neg h3, if_neg h4, if_pos h5]
      refine ⟨rfl, ?_, ?_⟩ <;> norm_num
  · intro hn
    have hntrig : ¬ paddleTrigger s := hn
    unfold paddleStep
    rw [if_neg hntrig]
    exact ⟨rfl, rfl, rfl, rfl⟩

theorem seamBall_trigger : paddleTrigger seamBall := by
  norm_num [paddleTrigger, seamBall, initialGame]

theorem seamBall_no_zone :
    ∀ i : Fin 5, ¬ paddleZone i (2.2880001068115234375 : ℚ) 2 := by
  intro i
  fin_cases i
  · show ¬ ((2.2880001068115234375 : ℚ) < 2 - 0.864)
    norm_num
  · show ¬ ((2.2880001068115234375 : ℚ) ≥ 2 - 0.864 ∧ (2.2880001068115234375 : ℚ) < 2 - 0.288)
    norm_num
  · show ¬ ((2.2880001068115234375 : ℚ) ≥ 2 - 0.288 ∧ (2.2880001068115234375 : ℚ) ≤ 2 + 0.288)
    norm_num
  · show ¬ ((2.2880001068115234375 : ℚ) > roundFloat (2 + roundFloat 0.288)
        ∧ (2.2880001068115234375 : ℚ) ≤ 2 + 0.864)
    rw [roundFloat_seam]
    norm_num
  · show ¬ ((2.2880001068115234375 : ℚ) > 2 + 0.864)
    norm_num

theorem seamBall_gap : paddleStep seamBall = { seamBall with dirY := -1 } :=
  paddleStep_gap seamBall seamBall_trigger seamBall_no_zone

/-- C4, at the ball `seamBall`: the paddle is at `2.0f`, the ball at
`(2.2880001f, 5.5)` and moving left with the speeds `(0.03, 0.03)`.  The bounce
triggers and the offset `d = ball.x - paddle.x` lies in `0.288 < d ≤ 0.864`,
where the mapping gives `(dirX, speedX, speedY) = (1, 0.0122, 0.0296)`; the
paddle step sets `dirY = -1` and leaves `(dirX, speedX, speedY) = (-1, 0.03,
0.03)`: the ball is above the `double` sum `2.288` of line 962 and not above the
`float` sum `2.2880001f` of line 967. -/
theorem paddleStep_seam_keeps_heading :
    (seamBall.ball.y ≥ 5.36 ∧ seamBall.paddle.x - 1.44 ≤ seamBall.ball.x
      ∧ seamBall.ball.x ≤ seamBall.paddle.x + 1.44) ∧
    (0.288 < seamBall.ball.x - seamBall.paddle.x
      ∧ seamBall.ball.x - seamBall.paddle.x ≤ 0.864) ∧
    (seamBall.paddle.x + 0.288 < seamBall.ball.x
      ∧ seamBall.ball.x = roundFloat (seamBall.paddle.x + roundFloat 0.288)) ∧
    (paddleStep seamBall).dirY = -1 ∧
    (paddleStep seamBall).dirX = -1 ∧ (paddleStep seamBall).speedX = 0.03 ∧
    (paddleStep seamBall).speedY = 0.03 ∧
    ¬ ((paddleStep seamBall).dirX = 1 ∧ (paddleStep seamBall).speedX = 0.0122 ∧
        (paddleStep seamBall).speedY = 0.0296) := by
  rw [seamBall_gap]
  refine ⟨by norm_num [seamBall, initialGame], by norm_num [seamBall, initialGame],
    ⟨by norm_num [seamBall, initialGame], ?_⟩, rfl, rfl, rfl, rfl, ?_⟩
  · show (2.2880001068115234375 : ℚ) = roundFloat (2 + roundFloat 0.288)
    rw [roundFloat_seam]
  · show ¬ ((-1 : ℚ) = 1 ∧ _)
    norm_num

/-- C19, at a ball at `x = 2.2880001f` and a paddle at `px = 2.0f`: the ball is
within `px - 1.44 ≤ x ≤ px + 1.44`, both positions are `float`s, and none of the
five conditions of the if/else-if chain holds: `x` is above the `double` sum
`px + 0.288` of line 962, which ends the third condition, and equal to the
`float` sum `px + 0.288f` of line 967, above which the fourth begins.  The
triggered bounce of `seamBall` falls through: it sets `dirY` and leaves `dirX`,
`speedX` and `speedY` as they were. -/
theorem paddle_zones_gap :
    ((2 : ℚ) - 1.44 ≤ 2.2880001068115234375 ∧ (2.2880001068115234375 : ℚ) ≤ 2 + 1.44) ∧
    (roundFloat (2 : ℚ) = 2
      ∧ roundFloat (2.2880001068115234375 : ℚ) = 2.2880001068115234375) ∧
    (∀ i : Fin 5, ¬ paddleZone i (2.2880001068115234375 : ℚ) 2) ∧
    (seamBall.ball.x = 2.2880001068115234375 ∧ seamBall.paddle.x = 2
      ∧ seamBall.ball.y ≥ 5.36) ∧
    paddleStep seamBall = { seamBall with dirY := -1 } :=
  ⟨by norm_num, ⟨roundFloat_two, roundFloat_seam_fixed⟩, seamBall_no_zone,
    ⟨rfl, rfl, by norm_num [seamBall, initialGame]⟩, seamBall_gap⟩

end Zones

/-! ## Brick hit: speeds -/

section HitSpeed

theorem hitBrick_speed {α : Type} [LinearOrderedField α] (sqrt : α → α) (brick : Vec3 α)
    (s : Game α) (h : inRange sqrt brick s) :
    (hitBrick sqrt brick s).2.speedX
      = sqrt ((s.ball.x - brick.x) ^ 2)
          / ((brickRadius + radius) / calcSpeed sqrt s.speedX s.speedY) ∧
    (hitBrick sqrt brick s).2.speedY
      = sqrt ((s.ball.y - brick.y) ^ 2)
          / ((brickRadius + radius)
              / calcSpeed sqrt (hitBrick sqrt brick s).2.speedX s.speedY) := by
  unfold hitBrick
  unfold inRange at h
  rw [if_pos h]
  exact ⟨rfl, rfl⟩

theorem calcSpeed_eq (a b c : ℝ) (hc : 0 ≤ c) (h : a ^ 2 + b ^ 2 = c ^ 2) :
    calcSpeed Real.sqrt a b = c := by
  unfold calcSpeed
  rw [h, Real.sqrt_sq hc]

theorem speedSample_inRange : inRange Real.sqrt ⟨0, 0, 0⟩ (speedSample : Game ℝ) := by
  unfold inRange
  rw [calcDist_le_iff _ _ _ _ _ (by rw [radii_sum]; norm_num), radii_sum]
  norm_num [speedSample]

/-- C13, at the ball `speedSample`: a brick at the origin is hit by a ball at
`(0, 0.93)`, at distance exactly `brickRadius + radius`, whose speeds are
`(0.03, 0.04)`, combined speed `0.05 > 0`.  Line 862 sets `speedX = 0`; line 863
then divides by the `calcSpeed` of the new `speedX` and the old `speedY`, which
is `0.04`, and sets `speedY = 0.04`: the combined speed after the hit is `0.04`.
With the combined speed of before the hit, the formula of line 863 gives
`0.05`, which keeps the speed. -/
theorem hitBrick_changes_speed :
    calcDist Real.sqrt 0 0 (speedSample : Game ℝ).ball.x (speedSample : Game ℝ).ball.y
      ≤ brickRadius + radius ∧
    calcSpeed Real.sqrt (speedSample : Game ℝ).speedX (speedSample : Game ℝ).speedY = 0.05 ∧
    (hitBrick Real.sqrt ⟨0, 0, 0⟩ (speedSample : Game ℝ)).2.speedX = 0 ∧
    (hitBrick Real.sqrt ⟨0, 0, 0⟩ (speedSample : Game ℝ)).2.speedY = 0.04 ∧
    calcSpeed Real.sqrt (hitBrick Real.sqrt ⟨0, 0, 0⟩ (speedSample : Game ℝ)).2.speedX
      (hitBrick Real.sqrt ⟨0, 0, 0⟩ (speedSample : Game ℝ)).2.speedY
      ≠ calcSpeed Real.sqrt (speedSample : Game ℝ).speedX (speedSample : Game ℝ).speedY ∧
    Real.sqrt (((speedSample : Game ℝ).ball.y - 0) ^ 2)
      / ((brickRadius + radius)
          / calcSpeed Real.sqrt (speedSample : Game ℝ).speedX (speedSample : Game ℝ).speedY)
      = 0.05 := by
  have hs : calcSpeed Real.sqrt (speedSample : Game ℝ).speedX (speedSample : Game ℝ).speedY
      = 0.05 :=
    calcSpeed_eq _ _ _ (by norm_num) (by norm_num [speedSample])
  have hx : (hitBrick Real.sqrt ⟨0, 0, 0⟩ (speedSample : Game ℝ)).2.speedX = 0 := by
    rw [(hitBrick_speed Real.sqrt _ _ speedSample_inRange).1]
    norm_num [speedSample]
  have hy : (hitBrick Real.sqrt ⟨0, 0, 0⟩ (speedSample : Game ℝ)).2.speedY = 0.04 := by
    rw [(hitBrick_speed Real.sqrt _ _ speedSample_inRange).2, hx,
      calcSpeed_eq 0 (speedSample : Game ℝ).speedY 0.04 (by norm_num)
        (by norm_num [speedSample]), radii_sum]
    have e : ((speedSample : Game ℝ).ball.y - 0) ^ 2 = (0.93 : ℝ) ^ 2 := by
      norm_num [speedSample]
    rw [e, Real.sqrt_sq (by norm_num)]
    norm_num
  refine ⟨speedSample_inRange, hs, hx, hy, ?_, ?_⟩
  · rw [hs, hx, hy, calcSpeed_eq 0 0.04 0.04 (by norm_num) (by norm_num)]
    norm_num
  · have e : ((speedSample : Game ℝ).ball.y - 0) ^ 2 = (0.93 : ℝ) ^ 2 := by
      norm_num [speedSample]
    rw [hs, radii_sum, e, Real.sqrt_sq (by norm_num)]
    norm_num

/-- The horizontal speed after a brick hit (line 862).  For a hit processed with
combined speed `s = calcSpeed speedX speedY > 0`, the new `speedX` is
`|ball.x - brick.x| / ((brickRadius + radius) / s)
  = s * |ball.x - brick.x| / (brickRadius + radius)`, which lies in `[0, s]`. -/
theorem hitBrick_speedX (brick : Vec3 ℝ) (s : Game ℝ)
    (h : calcDist Real.sqrt brick.x brick.y s.ball.x s.ball.y ≤ brickRadius + radius)
    (hs : 0 < calcSpeed Real.sqrt s.speedX s.speedY) :
    (hitBrick Real.sqrt brick s).2.speedX
      = |s.ball.x - brick.x| / ((brickRadius + radius) / calcSpeed Real.sqrt s.speedX s.speedY) ∧
    (hitBrick Real.sqrt brick s).2.speedX
      = calcSpeed Real.sqrt s.speedX s.speedY * |s.ball.x - brick.x| / (brickRadius + radius) ∧
    0 ≤ (hitBrick Real.sqrt brick s).2.speedX ∧
    (hitBrick Real.sqrt brick s).2.speedX ≤ calcSpeed Real.sqrt s.speedX s.speedY := by
  have hr : inRange Real.sqrt brick s := h
  have e1 : (hitBrick Real.sqrt brick s).2.speedX
      = |s.ball.x - brick.x| / ((brickRadius + radius) / calcSpeed Real.sqrt s.speedX s.speedY) := by
    rw [(hitBrick_speed Real.sqrt brick s hr).1, Real.sqrt_sq_eq_abs]
  have e2 : (hitBrick Real.sqrt brick s).2.speedX
      = calcSpeed Real.sqrt s.speedX s.speedY * |s.ball.x - brick.x| / (brickRadius + radius) := by
    rw [e1, radii_sum]
    field_simp
    ring
  have hd : |s.ball.x - brick.x| ≤ 0.93 := by
    rw [calcDist_le_iff _ _ _ _ _ (by rw [radii_sum]; norm_num), radii_sum] at h
    apply abs_le_of_sq_le_sq _ (by norm_num)
    nlinarith [sq_nonneg (s.ball.y - brick.y)]
  refine ⟨e1, e2, ?_, ?_⟩
  · rw [e2, radii_sum]
    positivity
  · rw [e2, radii_sum, div_le_iff₀ (by norm_num)]
    nlinarith [abs_nonneg (s.ball.x - brick.x)]

end HitSpeed

/-! ## The game loop on the scene -/

section SceneLoop

variable {α : Type} [LinearOrderedField α]

end SceneLoop

/-! ## Scene persistence: round trip -/


section RoundTrip

variable {α : Type} [LinearOrderedField α]

theorem lookup_map_assign (t : MaterialTable α) (k g : Guid) (v : Option (MaterialInfo α)) :
    (t.map (fun e => if e.1 = k then (k, v) else e)).lookup g
      = if g = k then (t.lookup g).map (fun _ => v) else t.lookup g := by
  induction t with
  | nil => simp
  | cons e es ih =>
    obtain ⟨a, b⟩ := e
    by_cases hak : a = k
    · subst hak
      by_cases hga : g = a
      · subst hga
        simp [List.lookup_cons]
      · have hb : (g == a) = false := by simpa using hga
        simp [List.lookup_cons, hb, hga, ih]
    · by_cases hga : g = a
      · subst hga
        have hgk : ¬ g = k := hak
        simp [List.lookup_cons, hak, hgk]
      · have hb : (g == a) = false := by simpa using hga
        simp [List.lookup_cons, hb, hak, ih]

theorem MaterialTable.lookup_assign_self (t : MaterialTable α) (k : Guid)
    (v : Option (MaterialInfo α)) : (t.assign k v).lookup k = some v := by
  unfold MaterialTable.assign
  split
  · rename_i w h
    rw [lookup_map_assign, if_pos rfl, h]
    rfl
  · rename_i h
    rw [List.lookup_append, h]
    simp

theorem MaterialTable.lookup_assign_ne (t : MaterialTable α) (k g : Guid)
    (v : Option (MaterialInfo α)) (hne : g ≠ k) : (t.assign k v).lookup g = t.lookup g := by
  unfold MaterialTable.assign
  have hb : (g == k) = false := by simpa using hne
  split
  · rw [lookup_map_assign, if_neg hne]
  · rw [List.lookup_append]
    simp [List.lookup_cons, hb]

theorem MaterialTable.holds_assign (t : MaterialTable α) (m : MaterialInfo α) (g : Guid)
    (h : t.holds g ∨ g = m.GUID) : (t.assign m.GUID (some m)).holds g := by
  by_cases hg : g = m.GUID
  · subst hg
    exact ⟨m, MaterialTable.lookup_assign_self t _ _, rfl⟩
  · rcases h with ⟨m', h1, h2⟩ | h
    · exact ⟨m', by rw [MaterialTable.lookup_assign_ne t _ _ _ hg]; exact h1, h2⟩
    · exact absurd h hg

theorem MaterialTable.index_of_holds (t : MaterialTable α) (g : Guid) (h : t.holds g) :
    ∃ m : MaterialInfo α, t.index g = (t, some m) ∧ m.GUID = g := by
  obtain ⟨m, h1, h2⟩ := h
  refine ⟨m, ?_, h2⟩
  unfold MaterialTable.index
  rw [h1]

theorem MaterialInfo_FromJson_ToJson (lib : Library α) (reg : Registry)
    (hg : ∀ g, lib.guidOfString (lib.guidStr g) = g) (m : MaterialInfo α) :
    ∃ m' : MaterialInfo α,
      MaterialInfo.FromJson lib reg (MaterialInfo.ToJson lib m) = some m' ∧
      m'.GUID = m.GUID ∧ m'.Name = m.Name ∧ m'.Shininess = m.Shininess := by
  refine ⟨_, rfl, ?_, rfl, rfl⟩
  exact hg m.GUID

theorem loadMaterials_holds (lib : Library α) (reg : Registry)
    (hg : ∀ g, lib.guidOfString (lib.guidStr g) = g) (ms : List (MaterialInfo α))
    (t : MaterialTable α) :
    ∃ t' : MaterialTable α,
      loadMaterials lib reg (ms.map (MaterialInfo.ToJson lib)) t = some t' ∧
      ∀ g, (t.holds g ∨ ∃ m ∈ ms, m.GUID = g) → t'.holds g := by
  induction ms generalizing t with
  | nil =>
    refine ⟨t, rfl, ?_⟩
    rintro g (h | ⟨m, hm, -⟩)
    · exact h
    · exact absurd hm (List.not_mem_nil m)
  | cons m ms ih =>
    obtain ⟨m', e, hguid, -, -⟩ := MaterialInfo_FromJson_ToJson lib reg hg m
    obtain ⟨t', ht', hcov⟩ := ih (t.assign m'.GUID (some m'))
    refine ⟨t', ?_, ?_⟩
    · simp only [List.map_cons, loadMaterials]
      rw [e]
      exact ht'
    · rintro g (h | ⟨x, hx, hxg⟩)
      · exact hcov g (Or.inl (MaterialTable.holds_assign t m' g (Or.inl h)))
      · rcases List.mem_cons.mp hx with hx | hx
        · subst hx
          exact hcov g (Or.inl (MaterialTable.holds_assign t m' g
            (Or.inr (by rw [hguid, hxg]))))
        · exact hcov g (Or.inr ⟨x, hx, hxg⟩)

theorem materialsToJson_of_nonnull (lib : Library α) (t : MaterialTable α)
    (h : ∀ e ∈ t, e.2 ≠ none) :
    ∃ ms : List (MaterialInfo α),
      materialsToJson lib t = some (ms.map (MaterialInfo.ToJson lib)) ∧
      ∀ m, (∃ e ∈ t, e.2 = some m) → m ∈ ms := by
  induction t with
  | nil =>
    refine ⟨[], rfl, ?_⟩
    rintro m ⟨e, he, -⟩
    exact absurd he (List.not_mem_nil e)
  | cons e es ih =>
    obtain ⟨ms, hms, hmem⟩ := ih (fun x hx => h x (List.mem_cons_of_mem _ hx))
    cases hv : e.2 with
    | none => exact absurd hv (h e (List.mem_cons_self _ _))
    | some v =>
      refine ⟨v :: ms, ?_, ?_⟩
      · simp only [materialsToJson, hv, hms, List.map_cons]
      · rintro m ⟨x, hx, hxm⟩
        rcases List.mem_cons.mp hx with hx | hx
        · subst hx
          rw [hv] at hxm
          simp only [Option.some.injEq] at hxm
          rw [← hxm]
          exact List.mem_cons_self _ _
        · exact List.mem_cons_of_mem _ (hmem m ⟨x, hx, hxm⟩)

theorem RenderObject_FromJson_ToJson (lib : Library α) (reg : Registry)
    (hg : ∀ g, lib.guidOfString (lib.guidStr g) = g)
    (hv : ∀ v, lib.parseVec3 (lib.vecToJson v) = some v)
    (o : RenderObject α) (mesh : Guid) (mat : MaterialInfo α)
    (hmesh : o.Mesh = some mesh) (hreg : mesh ∈ reg.meshes) (hmat : o.Material = some mat)
    (hparams : o.MeshBuilderParams = []) :
    ∃ j : Json α, RenderObject.ToJson lib o = some j ∧
      j.memberString "material" = some (lib.guidStr mat.GUID) ∧
      RenderObject.FromJson lib reg j
        = some { Name := o.Name, GUID := o.GUID, Transform := 1, Mesh := some mesh,
                 Material := none, MeshBuilderParams := [], Position := o.Position,
                 Rotation := o.Rotation, Scale := o.Scale } := by
  refine ⟨.obj [("name", .str o.Name), ("guid", .str (lib.guidStr o.GUID)),
      ("mesh", .str (lib.guidStr mesh)), ("material", .str (lib.guidStr mat.GUID)),
      ("position", lib.vecToJson o.Position), ("rotation", lib.vecToJson o.Rotation),
      ("scale", lib.vecToJson o.Scale)], ?_, rfl, ?_⟩
  · unfold RenderObject.ToJson
    rw [hmesh, hmat, hparams]
    rfl
  simp [RenderObject.FromJson, Json.memberString, Json.member, Json.getString, hg, hv,
    Registry.GetMesh, hreg]

theorem loadObjects_objectsToJson (lib : Library α) (reg : Registry)
    (hg : ∀ g, lib.guidOfString (lib.guidStr g) = g)
    (hv : ∀ v, lib.parseVec3 (lib.vecToJson v) = some v)
    (objs : List (RenderObject α)) (t : MaterialTable α)
    (ho : ∀ o ∈ objs, (∃ mesh, o.Mesh = some mesh ∧ mesh ∈ reg.meshes) ∧
      (∃ mat, o.Material = some mat ∧ t.holds mat.GUID) ∧ o.MeshBuilderParams = []) :
    ∃ (js : List (Json α)) (objs' : List (RenderObject α)),
      objectsToJson lib objs = some js ∧ loadObjects lib reg js t = some (t, objs') ∧
      objs'.map RenderObject.saved = objs.map RenderObject.saved := by
  induction objs with
  | nil => exact ⟨[], [], rfl, rfl, rfl⟩
  | cons o os ih =>
    obtain ⟨js, objs', h1, h2, h3⟩ := ih (fun x hx => ho x (List.mem_cons_of_mem _ hx))
    obtain ⟨⟨mesh, hmesh, hreg⟩, ⟨mat, hmat, hholds⟩, hparams⟩ := ho o (List.mem_cons_self _ _)
    obtain ⟨j, hj, hm, hf⟩ :=
      RenderObject_FromJson_ToJson lib reg hg hv o mesh mat hmesh hreg hmat hparams
    obtain ⟨m, hidx, hmg⟩ := MaterialTable.index_of_holds t mat.GUID hholds
    refine ⟨j :: js,
      { Name := o.Name, GUID := o.GUID, Transform := 1, Mesh := some mesh,
        Material := some m, MeshBuilderParams := [], Position := o.Position,
        Rotation := o.Rotation, Scale := o.Scale } :: objs', ?_, ?_, ?_⟩
    · simp only [objectsToJson, hj, h1]
    · simp only [loadObjects, hf, hm, hg, hidx, h2]
    · simp only [List.map_cons, h3, List.cons.injEq, and_true]
      simp only [RenderObject.saved, hmat, hmesh, Option.map_some', hmg]

theorem loadLights_ToJson (lib : Library α)
    (hv : ∀ v, lib.parseVec3 (lib.vecToJson v) = some v) (ls : List (Light α)) :
    loadLights lib (ls.map (Light.ToJson lib.vecToJson))
      = some (ls.map (fun l => { l with Attenuation := 1.0 / (1.0 + l.Range) })) := by
  induction ls with
  | nil => rfl
  | cons l ls ih =>
    simp only [List.map_cons, loadLights, ih]
    rw [Light.FromJson_eq lib.parseVec3 (Light.ToJson lib.vecToJson l) (lib.vecToJson l.Position)
      (lib.vecToJson l.Color) l.Position l.Color l.Range (by rfl) (by rfl) (by rfl) (hv _)
      (hv _)]

/-- C11, amended: the scene round trip.  Let `S` be a scene whose base shader
and camera are not null, whose material table has no null entry, and whose
objects all have a mesh that resolves in the registry, a material that is in the
material table of `S`, and no mesh builder parameters; let the library read back
the GUIDs and vectors it prints.  Then `S.ToJson()` returns a blob,
`Scene::FromJson` returns a scene for it, and that scene has as many objects as
`S`, in the same order, each with the `Name`, `GUID`, `Position`, `Rotation`,
`Scale`, material GUID and mesh GUID of the object of `S`; its lights are the
lights of `S` in the same order, each with its attenuation computed from its
range. -/
theorem Scene_roundtrip (lib : Library α) (reg : Registry) (sc : Scene α)
    (hg : ∀ g, lib.guidOfString (lib.guidStr g) = g)
    (hv : ∀ v, lib.parseVec3 (lib.vecToJson v) = some v)
    (hs : sc.BaseShader ≠ none) (hc : sc.Camera ≠ none)
    (ht : ∀ e ∈ sc.Materials, e.2 ≠ none)
    (ho : ∀ o ∈ sc.Objects, (∃ mesh, o.Mesh = some mesh ∧ mesh ∈ reg.meshes) ∧
      (∃ mat, o.Material = some mat ∧ ∃ e ∈ sc.Materials, e.2 = some mat) ∧
      o.MeshBuilderParams = []) :
    ∃ (blob : Json α) (sc' : Scene α),
      sc.ToJson lib = some blob ∧ Scene.FromJson lib reg blob = some sc' ∧
      sc'.Objects.length = sc.Objects.length ∧
      sc'.Objects.map RenderObject.saved = sc.Objects.map RenderObject.saved ∧
      sc'.Lights = sc.Lights.map (fun l => { l with Attenuation := 1.0 / (1.0 + l.Range) }) := by
  obtain ⟨shader, hshader⟩ := Option.ne_none_iff_exists'.mp hs
  obtain ⟨camera, hcamera⟩ := Option.ne_none_iff_exists'.mp hc
  obtain ⟨ms, hms, hmem⟩ := materialsToJson_of_nonnull lib sc.Materials ht
  obtain ⟨t, hload, hholds⟩ := loadMaterials_holds lib reg hg ms []
  have ho' : ∀ o ∈ sc.Objects, (∃ mesh, o.Mesh = some mesh ∧ mesh ∈ reg.meshes) ∧
      (∃ mat, o.Material = some mat ∧ t.holds mat.GUID) ∧ o.MeshBuilderParams = [] := by
    intro o hmemo
    obtain ⟨h1, ⟨mat, hmat, e, he, hem⟩, h3⟩ := ho o hmemo
    exact ⟨h1, ⟨mat, hmat, hholds _ (Or.inr ⟨mat, hmem mat ⟨e, he, hem⟩, rfl⟩)⟩, h3⟩
  obtain ⟨js, objs', hjs, hobjs, hsaved⟩ :=
    loadObjects_objectsToJson lib reg hg hv sc.Objects t ho'
  have hlights := loadLights_ToJson lib hv sc.Lights
  refine ⟨.obj [("default_shader", .str (lib.guidStr shader)),
      ("materials", .arr (ms.map (MaterialInfo.ToJson lib))),
      ("objects", .arr js),
      ("lights", .arr (sc.Lights.map (Light.ToJson lib.vecToJson))),
      ("camera", .obj [("position", lib.vecToJson camera.1),
                       ("normal", lib.vecToJson camera.2)])],
    { BaseShader := reg.GetShader (lib.guidOfString (lib.guidStr shader))
      Materials := t
      Objects := objs'
      Lights := sc.Lights.map (fun l => { l with Attenuation := 1.0 / (1.0 + l.Range) })
      Camera := some (camera.1, camera.2) }, ?_, ?_, ?_, hsaved, rfl⟩
  · unfold Scene.ToJson
    rw [hshader, hms, hjs, hcamera]
  · simp [Scene.FromJson, Json.memberString, Json.member, Json.getString, hload, hobjs,
      hlights, hv]
  · have := congrArg List.length hsaved
    simpa using this

theorem sampleLibrary_guid (g : Guid) :
    (sampleLibrary : Library α).guidOfString ((sampleLibrary : Library α).guidStr g) = g := by
  cases g with
  | mk n =>
    show Guid.mk (List.replicate n 'g').length = Guid.mk n
    rw [List.length_replicate]

/-- C11, as stated, fails: the one object of `paramScene` has a mesh that
resolves in the registry (GUID `2`) and a material of the material table, and it
has a mesh builder parameter; its JSON form carries `mesh_params`, so the loaded
object gets the newly baked mesh (GUID `1000`) and not the mesh with GUID `2`. -/
theorem baked_mesh_replaces_saved_mesh :
    (∀ o ∈ (paramScene : Scene ℚ).Objects,
      (∃ mesh, o.Mesh = some mesh ∧ mesh ∈ builtRegistry.meshes) ∧
      (∃ mat, o.Material = some mat ∧ ∃ e ∈ (paramScene : Scene ℚ).Materials, e.2 = some mat)) ∧
    ∃ (blob : Json ℚ) (sc' : Scene ℚ),
      (paramScene : Scene ℚ).ToJson sampleLibrary = some blob ∧
      Scene.FromJson sampleLibrary builtRegistry blob = some sc' ∧
      (paramScene : Scene ℚ).Objects.map (fun o => o.Mesh) = [some ⟨2⟩] ∧
      sc'.Objects.map (fun o => o.Mesh) = [some ⟨1000⟩] ∧
      sc'.Objects.map RenderObject.saved ≠ (paramScene : Scene ℚ).Objects.map RenderObject.saved := by
  constructor
  · intro o ho
    simp only [paramScene, List.mem_singleton] at ho
    subst ho
    exact ⟨⟨⟨2⟩, rfl, by decide⟩, ⟨builtMaterial 11 6, rfl, _, List.mem_singleton.mpr rfl, rfl⟩⟩
  · have key : ∃ (blob : Json ℚ) (sc' : Scene ℚ),
        (paramScene : Scene ℚ).ToJson sampleLibrary = some blob ∧
        Scene.FromJson sampleLibrary builtRegistry blob = some sc' ∧
        (paramScene : Scene ℚ).Objects.map (fun o => o.Mesh) = [some ⟨2⟩] ∧
        sc'.Objects.map (fun o => o.Mesh) = [some ⟨1000⟩] := ⟨_, _, rfl, rfl, rfl, rfl⟩
    obtain ⟨blob, sc', h1, h2, h3, h4⟩ := key
    refine ⟨blob, sc', h1, h2, h3, h4, ?_⟩
    intro h
    have h5 : sc'.Objects.map (fun o => o.Mesh)
        = (paramScene : Scene ℚ).Objects.map (fun o => o.Mesh) := by
      have h6 := congrArg (List.map (fun x => x.2.2.2.2.2.2)) h
      simpa only [List.map_map, Function.comp_def, RenderObject.saved] using h6
    rw [h3, h4] at h5
    exact absurd h5 (by decide)

theorem builtScene_objects :
    ∀ o ∈ (builtScene : Scene ℚ).Objects,
      (∃ mesh, o.Mesh = some mesh ∧ mesh ∈ builtRegistry.meshes) ∧
      (∃ mat, o.Material = some mat ∧ ∃ e ∈ (builtScene : Scene ℚ).Materials, e.2 = some mat) ∧
      o.MeshBuilderParams = [] := by
  intro o ho
  simp only [builtScene, List.mem_cons, List.mem_singleton, List.not_mem_nil, or_false] at ho
  rcases ho with h | h | h | h | h | h | h | h | h | h <;> subst h <;>
    exact ⟨⟨_, rfl, by decide⟩, ⟨_, rfl, by simp [builtScene]⟩, rfl⟩

theorem Scene_roundtrip_witness :
    ∃ (blob : Json ℚ) (sc' : Scene ℚ),
      (builtScene : Scene ℚ).ToJson sampleLibrary = some blob ∧
      Scene.FromJson sampleLibrary builtRegistry blob = some sc' ∧
      sc'.Objects.length = (builtScene : Scene ℚ).Objects.length ∧
      sc'.Objects.map RenderObject.saved = (builtScene : Scene ℚ).Objects.map RenderObject.saved ∧
      sc'.Lights = (builtScene : Scene ℚ).Lights.map
        (fun l => { l with Attenuation := 1.0 / (1.0 + l.Range) }) :=
  Scene_roundtrip sampleLibrary builtRegistry builtScene sampleLibrary_guid
    ParseJsonVec3_GlmToJson (by simp [builtScene]) (by simp [builtScene])
    (by intro e he
        simp only [builtScene, List.mem_cons, List.mem_singleton, List.not_mem_nil,
          or_false] at he
        rcases he with h | h | h | h | h | h <;> subst h <;> simp)
    builtScene_objects

/-- C12, at a blob whose materials array is empty and whose one object names
the material GUID `11`: `Scene::FromJson` accepts the blob, the loaded object has
a null material, and the material table of the loaded scene has one entry, a
null one under the GUID `11`, which the lookup of line 415 has inserted;
`ToJson` of the loaded scene then dereferences that null entry. -/
theorem FromJson_inserts_null_material :
    ∃ sc' : Scene ℚ,
      Scene.FromJson sampleLibrary builtRegistry (danglingBlob : Json ℚ) = some sc' ∧
      sc'.Objects.map (fun o => o.Material.map (fun m => m.GUID)) = [none] ∧
      sc'.Materials.map (fun e => (e.1, e.2.map (fun m => m.GUID))) = [(⟨11⟩, none)] ∧
      sc'.Materials ≠ [] ∧
      sc'.ToJson sampleLibrary = none := by
  have key : ∃ sc' : Scene ℚ,
      Scene.FromJson sampleLibrary builtRegistry (danglingBlob : Json ℚ) = some sc' ∧
      sc'.Objects.map (fun o => o.Material.map (fun m => m.GUID)) = [none] ∧
      sc'.Materials.map (fun e => (e.1, e.2.map (fun m => m.GUID))) = [(⟨11⟩, none)] ∧
      sc'.ToJson sampleLibrary = none := ⟨_, rfl, rfl, rfl, rfl⟩
  obtain ⟨sc', h1, h2, h3, h4⟩ := key
  refine ⟨sc', h1, h2, h3, ?_, h4⟩
  intro h
  rw [h] at h3
  exact absurd h3 (by simp)

end RoundTrip

section SceneLoopWitness

theorem builtScene_readPositions {α : Type} [LinearOrderedField α] :
    readPositions ⟨0, 1, 2, 3, 4, 5, 6, 8, 9⟩ (initialGame : Game α)
      (builtScene : Scene α).Objects = some initialGame := by
  rfl

end SceneLoopWitness

section KnownMaterials

variable {α : Type} [LinearOrderedField α]

theorem MaterialTable.index_of_known (t : MaterialTable α) (g : Guid)
    (h : (t.lookup g).isSome = true) : (t.index g).1 = t ∧ some (t.index g).2 = t.lookup g := by
  unfold MaterialTable.index
  cases hl : t.lookup g with
  | none => rw [hl] at h; exact absurd h (by simp)
  | some v => exact ⟨rfl, rfl⟩

theorem MaterialTable.index_of_unknown (t : MaterialTable α) (g : Guid)
    (h : t.lookup g = none) : t.index g = (t ++ [(g, none)], none) := by
  unfold MaterialTable.index
  rw [h]

/-- The objects loop leaves the material table as it is when every object names
a material GUID that the table has. -/
theorem loadObjects_known_materials (lib : Library α) (reg : Registry)
    (js : List (Json α)) (t : MaterialTable α) (r : MaterialTable α × List (RenderObject α))
    (h : loadObjects lib reg js t = some r)
    (hk : ∀ j ∈ js, ∀ ms, j.memberString "material" = some ms →
      (t.lookup (lib.guidOfString ms)).isSome = true) :
    r.1 = t := by
  induction js generalizing r with
  | nil =>
    simp only [loadObjects, Option.some.injEq] at h
    rw [← h]
  | cons j js ih =>
    unfold loadObjects at h
    split at h
    · rename_i obj ms hobj hms
      have hidx := MaterialTable.index_of_known t _ (hk j (List.mem_cons_self _ _) ms hms)
      rw [hidx.1] at h
      split at h
      · rename_i r' hr'
        simp only [Option.some.injEq] at h
        rw [← h]
        exact ih r' hr' (fun x hx => hk x (List.mem_cons_of_mem _ hx))
      · exact absurd h (by simp)
    · exact absurd h (by simp)

end KnownMaterials

end BrickBreaker
